import Mathlib

/-!
The hidet runtime's CUDA wrapper layer (`src/hidet/runtime/cuda_api.cpp`).

A shallow embedding of the sixteen `hidet_cuda_*` / `hidet_curand_*` wrappers and of the
`CurandContext` singleton.

* The CUDA runtime and the cuRAND library are external: they are an oracle `Env.driver`
  that answers every request with a status and the values written through the out-pointers.
  The oracle sees the whole history of earlier requests, so any deterministic driver is covered.
* Every request a wrapper makes is appended to `World.trace` together with the answer.
* A thrown `HidetException` is the `Except.error` result; the world after the throw is kept,
  because the caller may catch the exception and go on calling.
* `uint64_t`, `size_t` and pointers are 64 bits wide (LP64); they are naturals, and the one
  addition of the file that can overflow is reduced modulo `2^64`.
* The casts of an integer to a pointer, of `uint8_t` to `int` and of `uint32_t` to
  `cudaMemcpyKind` keep the number.
* `float` arguments are only forwarded; they are carried as their 32-bit patterns.
-/

namespace Hidet

/-! ## Constants of the CUDA headers used by the source -/

/-- The status `cudaSuccess` of `cuda_runtime.h`. -/
def cudaSuccess : Nat := 0

/-- The status `cudaErrorMemoryAllocation` of `cuda_runtime.h`. -/
def cudaErrorMemoryAllocation : Nat := 2

/-- The status `CURAND_STATUS_SUCCESS` of `curand.h`. -/
def CURAND_STATUS_SUCCESS : Nat := 0

/-- The generator type `CURAND_RNG_PSEUDO_DEFAULT` of `curand.h`. -/
def CURAND_RNG_PSEUDO_DEFAULT : Nat := 100

/-- The null pointer; as a stream argument it denotes the default stream. -/
def nullptr : Nat := 0

/-- Copy direction 0, from the comment in `hidet_cuda_memcpy_async`. -/
def cudaMemcpyHostToHost : Nat := 0

/-- Copy direction 1, from the comment in `hidet_cuda_memcpy_async`. -/
def cudaMemcpyHostToDevice : Nat := 1

/-- Copy direction 2, from the comment in `hidet_cuda_memcpy_async`. -/
def cudaMemcpyDeviceToHost : Nat := 2

/-- Copy direction 3, from the comment in `hidet_cuda_memcpy_async`. -/
def cudaMemcpyDeviceToDevice : Nat := 3

/-- The size of the `uint64_t` range. -/
def U64 : Nat := 2 ^ 64

/-! ## Requests, answers, the world -/

/-- A call into the CUDA runtime or cuRAND, with its by-value arguments in the order of the
library's signature. Out-pointer arguments are left out: what is written through them is in
the `Response`. -/
inductive Request where
  | cudaMemGetInfo
  | cudaMallocAsync (size stream : Nat)
  | cudaMallocHost (size : Nat)
  | cudaFreeAsync (devPtr stream : Nat)
  | cudaFreeHost (ptr : Nat)
  | cudaMemsetAsync (devPtr value count stream : Nat)
  | cudaMemcpyAsync (dst src count kind stream : Nat)
  | cudaDeviceSynchronize
  | curandCreateGenerator (rngType : Nat)
  | curandSetPseudoRandomGeneratorSeed (generator seed : Nat)
  | curandGenerateUniform (generator outputPtr num : Nat)
  | curandGenerateNormal (generator outputPtr n mean stddev : Nat)
  | cudaDeviceGetDefaultMemPool (device : Nat)
  | cudaMemPoolTrimTo (memPool minBytesToKeep : Nat)
  | cudaEventCreate
  | cudaEventDestroy (event : Nat)
  | cudaEventElapsedTime (start stop : Nat)
  | cudaEventRecord (event stream : Nat)
  deriving DecidableEq, Repr

/-- What the library answers: the returned status and the values it wrote through the first
and the second out-pointer (meaningful only where the request has such a pointer). -/
structure Response where
  status : Nat
  out : Nat
  out2 : Nat
  deriving DecidableEq, Repr

/-- One entry of the trace: a request and its answer. -/
structure Event where
  req : Request
  resp : Response
  deriving DecidableEq, Repr

/-- The surroundings of the process: the driver oracle, the two libc clocks read by the
`CurandContext` constructor, and the device that is current for the calling thread (the
source never reads or sets it). -/
structure Env where
  driver : List Event → Request → Response
  time : List Event → Nat
  clock : List Event → Nat
  activeDevice : Nat

/-- The state of the process seen by this layer: the requests made so far (oldest first) and
the function-local static `ctx` of `CurandContext::global`, `none` until its constructor has
completed, afterwards the generator it holds. -/
structure World where
  trace : List Event
  ctx : Option Nat
  deriving DecidableEq, Repr

/-- The process before any call into the layer. -/
def World.start : World := ⟨[], none⟩

/-- The exception thrown by the checking wrappers, with the status that caused it. -/
inductive HidetException where
  | cuda (status : Nat)
  | curand (status : Nat)
  deriving DecidableEq, Repr

deriving instance DecidableEq for Except

/-- The result of running a wrapper: what it returns or throws, and the world afterwards. -/
abbrev Outcome (α : Type) := Except HidetException α × World

/-- The answer of the driver to `req` in world `w`. -/
def respond (env : Env) (w : World) (req : Request) : Response :=
  env.driver w.trace req

/-- The world after `req` has been answered with `resp`. -/
def record (w : World) (req : Request) (resp : Response) : World :=
  { w with trace := w.trace ++ [⟨req, resp⟩] }

/-- Modelled from the spec: the checking wrapper `CUDA_CALL` of `hidet/runtime.h`, which is not
among the sources. Every driver-level failure is surfaced immediately at the call that
triggered it, with no retry, recovery or suppression: any status other than `cudaSuccess`
throws. -/
def CUDA_CALL (status : Nat) : Except HidetException Unit :=
  if status = cudaSuccess then .ok () else .error (.cuda status)

/-- Modelled from the spec: the checking wrapper `CURAND_CALL` of `hidet/runtime.h`, which is
not among the sources. Any status other than `CURAND_STATUS_SUCCESS` throws. -/
def CURAND_CALL (status : Nat) : Except HidetException Unit :=
  if status = CURAND_STATUS_SUCCESS then .ok () else .error (.curand status)

/-- The cast `reinterpret_cast<uint64_t>(ptr)` of a 64-bit pointer. -/
def reinterpret_cast_uint64 (ptr : Nat) : Nat := ptr % U64

/-! ## `CurandContext` -/

/-- The constructor `CurandContext()`: reads the clocks, creates the generator, seeds it.
Returns the `generator` member. -/
def CurandContext.ctor (env : Env) (w : World) : Outcome Nat :=
  let seed := (env.time w.trace ^^^ env.clock w.trace) % U64
  let r1 := respond env w (.curandCreateGenerator CURAND_RNG_PSEUDO_DEFAULT)
  let w1 := record w (.curandCreateGenerator CURAND_RNG_PSEUDO_DEFAULT) r1
  match CURAND_CALL r1.status with
  | .error e => (.error e, w1)
  | .ok () =>
    let r2 := respond env w1 (.curandSetPseudoRandomGeneratorSeed r1.out seed)
    let w2 := record w1 (.curandSetPseudoRandomGeneratorSeed r1.out seed) r2
    match CURAND_CALL r2.status with
    | .error e => (.error e, w2)
    | .ok () => (.ok r1.out, w2)

/-- The accessor `CurandContext::global()` with its function-local `static CurandContext ctx`:
the constructor runs when control first passes the declaration; when it exits by an exception
the initialisation is not complete and is tried again at the next call. Returns the
`generator` member of the context. -/
def CurandContext.global (env : Env) (w : World) : Outcome Nat :=
  match w.ctx with
  | some g => (.ok g, w)
  | none =>
    match CurandContext.ctor env w with
    | (.error e, w1) => (.error e, w1)
    | (.ok g, w1) => (.ok g, { w1 with ctx := some g })

/-! ## The wrappers -/

/-- The wrapper `hidet_cuda_mem_info(free, total)`; the two values written are returned as a pair. -/
def hidet_cuda_mem_info (env : Env) (w : World) : Outcome (Nat × Nat) :=
  let r := respond env w .cudaMemGetInfo
  let w1 := record w .cudaMemGetInfo r
  match CUDA_CALL r.status with
  | .error e => (.error e, w1)
  | .ok () => (.ok (r.out, r.out2), w1)

/-- The wrapper `hidet_cuda_malloc_async(bytes)`. -/
def hidet_cuda_malloc_async (env : Env) (bytes : Nat) (w : World) : Outcome Nat :=
  let r := respond env w (.cudaMallocAsync bytes nullptr)
  let w1 := record w (.cudaMallocAsync bytes nullptr) r
  if r.status = cudaErrorMemoryAllocation then
    (.ok 0, w1)
  else
    match CUDA_CALL r.status with
    | .error e => (.error e, w1)
    | .ok () => (.ok (reinterpret_cast_uint64 r.out), w1)

/-- The wrapper `hidet_cuda_malloc_host(bytes)`. -/
def hidet_cuda_malloc_host (env : Env) (bytes : Nat) (w : World) : Outcome Nat :=
  let r := respond env w (.cudaMallocHost bytes)
  let w1 := record w (.cudaMallocHost bytes) r
  match CUDA_CALL r.status with
  | .error e => (.error e, w1)
  | .ok () => (.ok (reinterpret_cast_uint64 r.out), w1)

/-- The wrapper `hidet_cuda_free_async(addr)`. -/
def hidet_cuda_free_async (env : Env) (addr : Nat) (w : World) : Outcome Unit :=
  let r := respond env w (.cudaFreeAsync addr nullptr)
  let w1 := record w (.cudaFreeAsync addr nullptr) r
  match CUDA_CALL r.status with
  | .error e => (.error e, w1)
  | .ok () => (.ok (), w1)

/-- The wrapper `hidet_cuda_free_host(addr)`; the commented-out alternative of the source is not code. -/
def hidet_cuda_free_host (env : Env) (addr : Nat) (w : World) : Outcome Unit :=
  let r := respond env w (.cudaFreeHost addr)
  let w1 := record w (.cudaFreeHost addr) r
  match CUDA_CALL r.status with
  | .error e => (.error e, w1)
  | .ok () => (.ok (), w1)

/-- The wrapper `hidet_cuda_memset_async(addr, bytes, value)`: the driver takes the value before the
count. -/
def hidet_cuda_memset_async (env : Env) (addr bytes value : Nat) (w : World) : Outcome Unit :=
  let r := respond env w (.cudaMemsetAsync addr value bytes nullptr)
  let w1 := record w (.cudaMemsetAsync addr value bytes nullptr) r
  match CUDA_CALL r.status with
  | .error e => (.error e, w1)
  | .ok () => (.ok (), w1)

/-- The wrapper `hidet_cuda_memcpy_async(src, dst, bytes, kind)`: the driver takes the destination before
the source; `cudaMemcpyKind(kind)` keeps the number. -/
def hidet_cuda_memcpy_async (env : Env) (src dst bytes kind : Nat) (w : World) : Outcome Unit :=
  let r := respond env w (.cudaMemcpyAsync dst src bytes kind nullptr)
  let w1 := record w (.cudaMemcpyAsync dst src bytes kind nullptr) r
  match CUDA_CALL r.status with
  | .error e => (.error e, w1)
  | .ok () => (.ok (), w1)

/-- The wrapper `hidet_cuda_device_synchronization()`. -/
def hidet_cuda_device_synchronization (env : Env) (w : World) : Outcome Unit :=
  let r := respond env w .cudaDeviceSynchronize
  let w1 := record w .cudaDeviceSynchronize r
  match CUDA_CALL r.status with
  | .error e => (.error e, w1)
  | .ok () => (.ok (), w1)

/-- The wrapper `hidet_curand_generate_uniform(addr, size)`: the context is fetched while the arguments
of `curandGenerateUniform` are evaluated. -/
def hidet_curand_generate_uniform (env : Env) (addr size : Nat) (w : World) : Outcome Unit :=
  match CurandContext.global env w with
  | (.error e, w1) => (.error e, w1)
  | (.ok g, w1) =>
    let r := respond env w1 (.curandGenerateUniform g addr size)
    let w2 := record w1 (.curandGenerateUniform g addr size) r
    match CURAND_CALL r.status with
    | .error e => (.error e, w2)
    | .ok () => (.ok (), w2)

/-- The wrapper `hidet_curand_generate_normal(addr, size, mean, stddev)`: `if(size & 1) size += 1;` on a
`uint64_t`, then the request. -/
def hidet_curand_generate_normal (env : Env) (addr size mean stddev : Nat) (w : World) :
    Outcome Unit :=
  let size1 := if size &&& 1 ≠ 0 then (size + 1) % U64 else size
  match CurandContext.global env w with
  | (.error e, w1) => (.error e, w1)
  | (.ok g, w1) =>
    let r := respond env w1 (.curandGenerateNormal g addr size1 mean stddev)
    let w2 := record w1 (.curandGenerateNormal g addr size1 mean stddev) r
    match CURAND_CALL r.status with
    | .error e => (.error e, w2)
    | .ok () => (.ok (), w2)

/-- The wrapper `hidet_cuda_mem_pool_trim_to(min_bytes_to_keep)`. -/
def hidet_cuda_mem_pool_trim_to (env : Env) (min_bytes_to_keep : Nat) (w : World) :
    Outcome Unit :=
  let r1 := respond env w (.cudaDeviceGetDefaultMemPool 0)
  let w1 := record w (.cudaDeviceGetDefaultMemPool 0) r1
  match CUDA_CALL r1.status with
  | .error e => (.error e, w1)
  | .ok () =>
    let r2 := respond env w1 (.cudaMemPoolTrimTo r1.out min_bytes_to_keep)
    let w2 := record w1 (.cudaMemPoolTrimTo r1.out min_bytes_to_keep) r2
    match CUDA_CALL r2.status with
    | .error e => (.error e, w2)
    | .ok () => (.ok (), w2)

/-- The wrapper `hidet_cuda_event_create()`. -/
def hidet_cuda_event_create (env : Env) (w : World) : Outcome Nat :=
  let r := respond env w .cudaEventCreate
  let w1 := record w .cudaEventCreate r
  match CUDA_CALL r.status with
  | .error e => (.error e, w1)
  | .ok () => (.ok (reinterpret_cast_uint64 r.out), w1)

/-- The wrapper `hidet_cuda_event_destroy(handle)`. -/
def hidet_cuda_event_destroy (env : Env) (handle : Nat) (w : World) : Outcome Unit :=
  let r := respond env w (.cudaEventDestroy handle)
  let w1 := record w (.cudaEventDestroy handle) r
  match CUDA_CALL r.status with
  | .error e => (.error e, w1)
  | .ok () => (.ok (), w1)

/-- The wrapper `hidet_cuda_event_elapsed_time(start, end)`; the latency is returned as its bit pattern. -/
def hidet_cuda_event_elapsed_time (env : Env) (start stop : Nat) (w : World) : Outcome Nat :=
  let r := respond env w (.cudaEventElapsedTime start stop)
  let w1 := record w (.cudaEventElapsedTime start stop) r
  match CUDA_CALL r.status with
  | .error e => (.error e, w1)
  | .ok () => (.ok r.out, w1)

/-- The wrapper `hidet_cuda_event_record(event_handle, stream_handle)`. -/
def hidet_cuda_event_record (env : Env) (event_handle stream_handle : Nat) (w : World) :
    Outcome Unit :=
  let r := respond env w (.cudaEventRecord event_handle stream_handle)
  let w1 := record w (.cudaEventRecord event_handle stream_handle) r
  match CUDA_CALL r.status with
  | .error e => (.error e, w1)
  | .ok () => (.ok (), w1)

/-! ## Calls and call sequences -/

/-- A call of one of the sixteen exported functions, with its arguments. -/
inductive Op where
  | mem_info
  | malloc_async (bytes : Nat)
  | malloc_host (bytes : Nat)
  | free_async (addr : Nat)
  | free_host (addr : Nat)
  | memset_async (addr bytes value : Nat)
  | memcpy_async (src dst bytes kind : Nat)
  | device_synchronization
  | generate_uniform (addr size : Nat)
  | generate_normal (addr size mean stddev : Nat)
  | mem_pool_trim_to (min_bytes_to_keep : Nat)
  | event_create
  | event_destroy (handle : Nat)
  | event_elapsed_time (start stop : Nat)
  | event_record (event_handle stream_handle : Nat)
  deriving DecidableEq, Repr

/-- What a call hands back to its caller. -/
inductive Ret where
  | void
  | u64 (value : Nat)
  | pair (free total : Nat)
  | f32 (bits : Nat)
  deriving DecidableEq, Repr

/-- The outcome of a wrapper with its return value wrapped in `Ret`. -/
def Outcome.ret {α : Type} (f : α → Ret) (o : Outcome α) : Outcome Ret :=
  match o with
  | (.error e, w) => (.error e, w)
  | (.ok a, w) => (.ok (f a), w)

/-- One call of the layer in world `w`. -/
def step (env : Env) (op : Op) (w : World) : Outcome Ret :=
  match op with
  | .mem_info => (hidet_cuda_mem_info env w).ret (fun p => .pair p.1 p.2)
  | .malloc_async bytes => (hidet_cuda_malloc_async env bytes w).ret .u64
  | .malloc_host bytes => (hidet_cuda_malloc_host env bytes w).ret .u64
  | .free_async addr => (hidet_cuda_free_async env addr w).ret (fun _ => .void)
  | .free_host addr => (hidet_cuda_free_host env addr w).ret (fun _ => .void)
  | .memset_async addr bytes value =>
    (hidet_cuda_memset_async env addr bytes value w).ret (fun _ => .void)
  | .memcpy_async src dst bytes kind =>
    (hidet_cuda_memcpy_async env src dst bytes kind w).ret (fun _ => .void)
  | .device_synchronization => (hidet_cuda_device_synchronization env w).ret (fun _ => .void)
  | .generate_uniform addr size =>
    (hidet_curand_generate_uniform env addr size w).ret (fun _ => .void)
  | .generate_normal addr size mean stddev =>
    (hidet_curand_generate_normal env addr size mean stddev w).ret (fun _ => .void)
  | .mem_pool_trim_to n => (hidet_cuda_mem_pool_trim_to env n w).ret (fun _ => .void)
  | .event_create => (hidet_cuda_event_create env w).ret .u64
  | .event_destroy handle => (hidet_cuda_event_destroy env handle w).ret (fun _ => .void)
  | .event_elapsed_time start stop =>
    (hidet_cuda_event_elapsed_time env start stop w).ret .f32
  | .event_record e s => (hidet_cuda_event_record env e s w).ret (fun _ => .void)

/-- The world after a sequence of calls issued one after another; a call that throws leaves
the process running, and the next call is made in the world it left. -/
def run (env : Env) (ops : List Op) (w : World) : World :=
  match ops with
  | [] => w
  | op :: rest => run env rest (step env op w).2

/-- The requests an outcome added to the trace of the world it started from. -/
def issuedSince {α : Type} (w : World) (o : Outcome α) : List Event :=
  o.2.trace.drop w.trace.length

/-- The requests made by one call. -/
def issued (env : Env) (op : Op) (w : World) : List Event :=
  issuedSince w (step env op w)

/-- The call threw. -/
def threw {α : Type} (o : Outcome α) : Bool :=
  match o.1 with
  | .error _ => true
  | .ok _ => false

/-- The status that means success for a request: `CURAND_STATUS_SUCCESS` for the cuRAND
requests, `cudaSuccess` for the others. -/
def Request.successStatus : Request → Nat
  | .curandCreateGenerator _ => CURAND_STATUS_SUCCESS
  | .curandSetPseudoRandomGeneratorSeed _ _ => CURAND_STATUS_SUCCESS
  | .curandGenerateUniform _ _ _ => CURAND_STATUS_SUCCESS
  | .curandGenerateNormal _ _ _ _ _ => CURAND_STATUS_SUCCESS
  | _ => cudaSuccess

/-- The request was answered with a non-success status. -/
def Event.failed (e : Event) : Bool :=
  decide (e.resp.status ≠ e.req.successStatus)

/-- The request creates a generator. -/
def Request.isCreate : Request → Bool
  | .curandCreateGenerator _ => true
  | _ => false

/-- The request sets the seed of a generator. -/
def Request.isSeed : Request → Bool
  | .curandSetPseudoRandomGeneratorSeed _ _ => true
  | _ => false

/-- The request asks a generator for values. -/
def Request.isGenerate : Request → Bool
  | .curandGenerateUniform _ _ _ => true
  | .curandGenerateNormal _ _ _ _ _ => true
  | _ => false

/-- The request trims a memory pool. -/
def Request.isTrim : Request → Bool
  | .cudaMemPoolTrimTo _ _ => true
  | _ => false

/-- The generator a cuRAND request is addressed to. -/
def Request.generator? : Request → Option Nat
  | .curandSetPseudoRandomGeneratorSeed g _ => some g
  | .curandGenerateUniform g _ _ => some g
  | .curandGenerateNormal g _ _ _ _ => some g
  | _ => none

/-- The call is one of the two random fills. -/
def Op.isRandomFill : Op → Bool
  | .generate_uniform _ _ => true
  | .generate_normal _ _ _ _ => true
  | _ => false

/-- The call is `hidet_cuda_malloc_async`. -/
def Op.isMallocAsync : Op → Bool
  | .malloc_async _ => true
  | _ => false

/-- The requests of a trace, without the answers. -/
def requests (es : List Event) : List Request := es.map Event.req

/-- How many generators a trace creates. -/
def createCount (es : List Event) : Nat := (es.filter (fun e => e.req.isCreate)).length

/-- How many times a trace sets a seed. -/
def seedCount (es : List Event) : Nat := (es.filter (fun e => e.req.isSeed)).length

/-- Modelled from the spec: the effect on device memory of a fill request once it has completed
(the driver is an external collaborator and not among the sources): the `count` bytes from
`devPtr` on hold the low byte of `value`, every other byte is unchanged. Memory is a map from
addresses to bytes. -/
def fillEffect (req : Request) (mem : Nat → Nat) : Nat → Nat :=
  match req with
  | .cudaMemsetAsync devPtr value count _ =>
    fun a => if devPtr ≤ a ∧ a < devPtr + count then value % 256 else mem a
  | _ => mem

/-! ## Shapes shared by the wrappers (used to state lemmas once) -/

/-- The shape shared by the wrappers that make one request under `CUDA_CALL`. -/
def checkedCall {α : Type} (env : Env) (req : Request) (f : Response → α) (w : World) :
    Outcome α :=
  match CUDA_CALL (respond env w req).status with
  | .error e => (.error e, record w req (respond env w req))
  | .ok () => (.ok (f (respond env w req)), record w req (respond env w req))

/-- The shape of a generation request under `CURAND_CALL`. -/
def checkedRand (env : Env) (req : Request) (w : World) : Outcome Unit :=
  match CURAND_CALL (respond env w req).status with
  | .error e => (.error e, record w req (respond env w req))
  | .ok () => (.ok (), record w req (respond env w req))

/-- The creation request of the `CurandContext` constructor. -/
def createReq : Request := .curandCreateGenerator CURAND_RNG_PSEUDO_DEFAULT

/-- The answer to the creation request made in world `w`. -/
def createResp (env : Env) (w : World) : Response := respond env w createReq

/-- The seeding request of the constructor started in world `w`. -/
def seedReq (env : Env) (w : World) : Request :=
  .curandSetPseudoRandomGeneratorSeed (createResp env w).out
    ((env.time w.trace ^^^ env.clock w.trace) % U64)

/-- The answer to the seeding request of the constructor started in world `w`. -/
def seedResp (env : Env) (w : World) : Response :=
  respond env (record w createReq (createResp env w)) (seedReq env w)

/-- The generation request of a random fill addressed to generator `g`; for the normal fill
the count is the one computed by `if(size & 1) size += 1;`. -/
def fillReq (op : Op) (g : Nat) : Request :=
  match op with
  | .generate_normal addr size mean stddev =>
    .curandGenerateNormal g addr (if size &&& 1 ≠ 0 then (size + 1) % U64 else size) mean stddev
  | .generate_uniform addr size => .curandGenerateUniform g addr size
  | _ => .curandGenerateUniform g 0 0

/-- The one request of a call that makes exactly one request. -/
def Op.request? : Op → Option Request
  | .mem_info => some .cudaMemGetInfo
  | .malloc_async bytes => some (.cudaMallocAsync bytes nullptr)
  | .malloc_host bytes => some (.cudaMallocHost bytes)
  | .free_async addr => some (.cudaFreeAsync addr nullptr)
  | .free_host addr => some (.cudaFreeHost addr)
  | .memset_async addr bytes value => some (.cudaMemsetAsync addr value bytes nullptr)
  | .memcpy_async src dst bytes kind => some (.cudaMemcpyAsync dst src bytes kind nullptr)
  | .device_synchronization => some .cudaDeviceSynchronize
  | .event_create => some .cudaEventCreate
  | .event_destroy handle => some (.cudaEventDestroy handle)
  | .event_elapsed_time start stop => some (.cudaEventElapsedTime start stop)
  | .event_record e s => some (.cudaEventRecord e s)
  | _ => none

/-- The lookup request of the pool trim. -/
def poolReq : Request := .cudaDeviceGetDefaultMemPool 0

/-- The world right after the constructor has created and seeded the generator, started in
world `w`. -/
def seeded (env : Env) (w : World) : World :=
  { record (record w createReq (createResp env w)) (seedReq env w) (seedResp env w)
    with ctx := some (createResp env w).out }

/-- The trim request of the pool trim started in world `w`. -/
def trimReq (env : Env) (w : World) (n : Nat) : Request :=
  .cudaMemPoolTrimTo (respond env w poolReq).out n

/-- The answer to the trim request of the pool trim started in world `w`. -/
def trimResp (env : Env) (w : World) (n : Nat) : Response :=
  respond env (record w poolReq (respond env w poolReq)) (trimReq env w n)

/-! ## Sample drivers -/

/-- A driver for which every request succeeds, handing out the handle `4096`. -/
def okEnv : Env :=
  { driver := fun _ _ => ⟨0, 4096, 8192⟩, time := fun _ => 1700000000, clock := fun _ => 1234,
    activeDevice := 1 }

/-- A driver that answers every request with status `s`, writing `p`. -/
def constEnv (s p : Nat) : Env :=
  { driver := fun _ _ => ⟨s, p, 0⟩, time := fun _ => 0, clock := fun _ => 0, activeDevice := 0 }

/-- A driver whose first seeding request fails (status 102) and for which everything else
succeeds; the handle it hands out is the position of the request in the history. -/
def seedFailsOnceEnv : Env :=
  { driver := fun h r =>
      match r with
      | .curandSetPseudoRandomGeneratorSeed _ _ =>
        if h.length < 2 then ⟨102, 0, 0⟩ else ⟨0, 0, 0⟩
      | _ => ⟨0, 7000 + h.length, 0⟩,
    time := fun _ => 5, clock := fun _ => 3, activeDevice := 0 }

/-- A driver for which generator creation fails (status 203) and everything else succeeds. -/
def createFailsEnv : Env :=
  { driver := fun _ r =>
      match r with
      | .curandCreateGenerator _ => ⟨203, 0, 0⟩
      | _ => ⟨0, 4096, 0⟩,
    time := fun _ => 0, clock := fun _ => 0, activeDevice := 0 }

/-- A driver for which seeding fails (status 102) and everything else succeeds. -/
def seedFailsEnv : Env :=
  { driver := fun _ r =>
      match r with
      | .curandSetPseudoRandomGeneratorSeed _ _ => ⟨102, 0, 0⟩
      | _ => ⟨0, 4096, 0⟩,
    time := fun _ => 0, clock := fun _ => 0, activeDevice := 0 }

/-- A driver for which looking up the default pool fails (status 101) and everything else
succeeds. -/
def poolLookupFailsEnv : Env :=
  { driver := fun _ r =>
      match r with
      | .cudaDeviceGetDefaultMemPool _ => ⟨101, 0, 0⟩
      | _ => ⟨0, 4096, 0⟩,
    time := fun _ => 0, clock := fun _ => 0, activeDevice := 2 }

/-! ## Basic facts -/

theorem CUDA_CALL_ok {s : Nat} (h : s = cudaSuccess) : CUDA_CALL s = .ok () := by
  simp [CUDA_CALL, h]

theorem CUDA_CALL_error {s : Nat} (h : s ≠ cudaSuccess) : CUDA_CALL s = .error (.cuda s) := by
  simp [CUDA_CALL, h]

theorem CURAND_CALL_ok {s : Nat} (h : s = CURAND_STATUS_SUCCESS) : CURAND_CALL s = .ok () := by
  simp [CURAND_CALL, h]

theorem CURAND_CALL_error {s : Nat} (h : s ≠ CURAND_STATUS_SUCCESS) :
    CURAND_CALL s = .error (.curand s) := by
  simp [CURAND_CALL, h]

theorem issuedSince_append {α : Type} (w : World) (o : Outcome α) (es : List Event)
    (h : o.2.trace = w.trace ++ es) : issuedSince w o = es := by
  simp [issuedSince, h]

theorem malloc_async_trace (env : Env) (bytes : Nat) (w : World) :
    (hidet_cuda_malloc_async env bytes w).2.trace
      = w.trace ++ [⟨.cudaMallocAsync bytes nullptr,
          respond env w (.cudaMallocAsync bytes nullptr)⟩] := by
  unfold hidet_cuda_malloc_async
  by_cases h1 : (respond env w (.cudaMallocAsync bytes nullptr)).status
      = cudaErrorMemoryAllocation
  · simp only [h1, if_true]; rfl
  · simp only [h1, if_false]
    by_cases h2 : (respond env w (.cudaMallocAsync bytes nullptr)).status = cudaSuccess
    · rw [CUDA_CALL_ok h2]; rfl
    · rw [CUDA_CALL_error h2]; rfl

/-! ## Pooled allocation -/

/-- C1: `hidet_cuda_malloc_async` makes one pooled allocation request on the default stream and
then behaves in exactly one of three ways, selected by the status of that request: on
`cudaErrorMemoryAllocation` it returns 0 without throwing; on any other non-success status it
throws (nothing is returned); on `cudaSuccess` it returns the pointer the driver wrote, cast to
`uint64_t`. The three cases exclude one another. -/
theorem malloc_async_three_ways (env : Env) (bytes : Nat) (w : World) :
    requests (issuedSince w (hidet_cuda_malloc_async env bytes w))
      = [.cudaMallocAsync bytes nullptr] ∧
    ((respond env w (.cudaMallocAsync bytes nullptr)).status = cudaErrorMemoryAllocation →
      (hidet_cuda_malloc_async env bytes w).1 = .ok 0) ∧
    ((respond env w (.cudaMallocAsync bytes nullptr)).status ≠ cudaErrorMemoryAllocation →
      (respond env w (.cudaMallocAsync bytes nullptr)).status ≠ cudaSuccess →
      (hidet_cuda_malloc_async env bytes w).1
        = .error (.cuda (respond env w (.cudaMallocAsync bytes nullptr)).status)) ∧
    ((respond env w (.cudaMallocAsync bytes nullptr)).status = cudaSuccess →
      (hidet_cuda_malloc_async env bytes w).1
        = .ok (reinterpret_cast_uint64 (respond env w (.cudaMallocAsync bytes nullptr)).out)) ∧
    cudaSuccess ≠ cudaErrorMemoryAllocation := by
  refine ⟨?_, ?_, ?_, ?_, by decide⟩
  · rw [issuedSince_append _ _ _ (malloc_async_trace env bytes w)]; rfl
  · intro h1
    simp [hidet_cuda_malloc_async, h1]
  · intro h1 h2
    simp [hidet_cuda_malloc_async, h1, CUDA_CALL_error h2]
  · intro h2
    have h1 : (respond env w (.cudaMallocAsync bytes nullptr)).status
        ≠ cudaErrorMemoryAllocation := by
      rw [h2]; decide
    simp [hidet_cuda_malloc_async, h1, CUDA_CALL_ok h2]

/-- C1, at concrete drivers: out of memory gives 0, status 700 throws, success gives the
pointer. -/
theorem malloc_async_three_ways_witness :
    (hidet_cuda_malloc_async (constEnv 2 77) 16 World.start).1 = .ok 0 ∧
    (hidet_cuda_malloc_async (constEnv 700 77) 16 World.start).1 = .error (.cuda 700) ∧
    (hidet_cuda_malloc_async (constEnv 0 77) 16 World.start).1 = .ok 77 :=
  ⟨(malloc_async_three_ways (constEnv 2 77) 16 World.start).2.1 (by decide),
   (malloc_async_three_ways (constEnv 700 77) 16 World.start).2.2.1 (by decide) (by decide),
   (malloc_async_three_ways (constEnv 0 77) 16 World.start).2.2.2.1 (by decide)⟩

/-- C6 as stated fails: a driver that answers a pooled request of 0 bytes with `cudaSuccess`
and a null pointer makes `hidet_cuda_malloc_async` return 0 although the allocation succeeded
and no out-of-memory was reported. -/
theorem malloc_async_zero_on_success :
    (respond (constEnv 0 0) World.start (.cudaMallocAsync 0 nullptr)).status = cudaSuccess ∧
    (respond (constEnv 0 0) World.start (.cudaMallocAsync 0 nullptr)).status
      ≠ cudaErrorMemoryAllocation ∧
    (hidet_cuda_malloc_async (constEnv 0 0) 0 World.start).1 = .ok 0 := by
  decide

/-- C6, amended: when the pooled allocation succeeds with a non-null pointer the handle
returned is that pointer and is not zero; and a zero result is returned only when the driver
reported out-of-memory or reported success with a null pointer. -/
theorem malloc_async_nonzero_handle (env : Env) (bytes : Nat) (w : World) :
    ((respond env w (.cudaMallocAsync bytes nullptr)).status = cudaSuccess →
      reinterpret_cast_uint64 (respond env w (.cudaMallocAsync bytes nullptr)).out ≠ 0 →
      ∃ h, (hidet_cuda_malloc_async env bytes w).1 = .ok h ∧ h ≠ 0 ∧
        h = reinterpret_cast_uint64 (respond env w (.cudaMallocAsync bytes nullptr)).out) ∧
    ((hidet_cuda_malloc_async env bytes w).1 = .ok 0 →
      (respond env w (.cudaMallocAsync bytes nullptr)).status = cudaErrorMemoryAllocation ∨
      ((respond env w (.cudaMallocAsync bytes nullptr)).status = cudaSuccess ∧
        reinterpret_cast_uint64 (respond env w (.cudaMallocAsync bytes nullptr)).out = 0)) := by
  constructor
  · intro h2 hp
    have h1 : (respond env w (.cudaMallocAsync bytes nullptr)).status
        ≠ cudaErrorMemoryAllocation := by
      rw [h2]; decide
    exact ⟨_, by simp [hidet_cuda_malloc_async, h1, CUDA_CALL_ok h2], hp, rfl⟩
  · intro h0
    by_cases h1 : (respond env w (.cudaMallocAsync bytes nullptr)).status
        = cudaErrorMemoryAllocation
    · exact Or.inl h1
    · by_cases h2 : (respond env w (.cudaMallocAsync bytes nullptr)).status = cudaSuccess
      · right
        refine ⟨h2, ?_⟩
        simpa [hidet_cuda_malloc_async, h1, CUDA_CALL_ok h2] using h0
      · simp [hidet_cuda_malloc_async, h1, CUDA_CALL_error h2] at h0

/-- C6 amended, at a concrete driver: success with the pointer 4096 gives the handle 4096. -/
theorem malloc_async_nonzero_handle_witness :
    ∃ h, (hidet_cuda_malloc_async okEnv 1024 World.start).1 = .ok h ∧ h ≠ 0 ∧ h = 4096 :=
  (malloc_async_nonzero_handle okEnv 1024 World.start).1 (by decide) (by decide)


/-! ## The shape lemmas -/

theorem checkedCall_world {α : Type} (env : Env) (req : Request) (f : Response → α)
    (w : World) : (checkedCall env req f w).2 = record w req (respond env w req) := by
  unfold checkedCall
  by_cases h : (respond env w req).status = cudaSuccess
  · rw [CUDA_CALL_ok h]
  · rw [CUDA_CALL_error h]

theorem checkedCall_threw {α : Type} (env : Env) (req : Request) (f : Response → α)
    (w : World) :
    threw (checkedCall env req f w) = decide ((respond env w req).status ≠ cudaSuccess) := by
  unfold checkedCall
  by_cases h : (respond env w req).status = cudaSuccess
  · rw [CUDA_CALL_ok h]; simp [threw, h]
  · rw [CUDA_CALL_error h]; simp [threw, h]

theorem checkedRand_world (env : Env) (req : Request) (w : World) :
    (checkedRand env req w).2 = record w req (respond env w req) := by
  unfold checkedRand
  by_cases h : (respond env w req).status = CURAND_STATUS_SUCCESS
  · rw [CURAND_CALL_ok h]
  · rw [CURAND_CALL_error h]

theorem checkedRand_threw (env : Env) (req : Request) (w : World) :
    threw (checkedRand env req w)
      = decide ((respond env w req).status ≠ CURAND_STATUS_SUCCESS) := by
  unfold checkedRand
  by_cases h : (respond env w req).status = CURAND_STATUS_SUCCESS
  · rw [CURAND_CALL_ok h]; simp [threw, h]
  · rw [CURAND_CALL_error h]; simp [threw, h]

theorem ret_world {α : Type} (f : α → Ret) (o : Outcome α) : (o.ret f).2 = o.2 := by
  rcases o with ⟨r, w⟩
  cases r <;> rfl

theorem ret_threw {α : Type} (f : α → Ret) (o : Outcome α) : threw (o.ret f) = threw o := by
  rcases o with ⟨r, w⟩
  cases r <;> rfl

theorem ctor_create_fails (env : Env) (w : World)
    (h1 : (createResp env w).status ≠ CURAND_STATUS_SUCCESS) :
    CurandContext.ctor env w
      = (.error (.curand (createResp env w).status), record w createReq (createResp env w)) := by
  unfold CurandContext.ctor
  simp only []
  rw [show respond env w (.curandCreateGenerator CURAND_RNG_PSEUDO_DEFAULT)
    = createResp env w from rfl, CURAND_CALL_error h1]
  rfl

theorem ctor_seed_fails (env : Env) (w : World)
    (h1 : (createResp env w).status = CURAND_STATUS_SUCCESS)
    (h2 : (seedResp env w).status ≠ CURAND_STATUS_SUCCESS) :
    CurandContext.ctor env w
      = (.error (.curand (seedResp env w).status),
          record (record w createReq (createResp env w)) (seedReq env w) (seedResp env w)) := by
  have e2 : CURAND_CALL (respond env (record w createReq (createResp env w)) (seedReq env w)).status
      = .error (.curand (seedResp env w).status) := CURAND_CALL_error h2
  unfold CurandContext.ctor
  simp only []
  rw [show respond env w (.curandCreateGenerator CURAND_RNG_PSEUDO_DEFAULT)
    = createResp env w from rfl, CURAND_CALL_ok h1]
  simp only []
  unfold seedReq createReq at e2
  rw [e2]
  rfl

theorem ctor_succeeds (env : Env) (w : World)
    (h1 : (createResp env w).status = CURAND_STATUS_SUCCESS)
    (h2 : (seedResp env w).status = CURAND_STATUS_SUCCESS) :
    CurandContext.ctor env w
      = (.ok (createResp env w).out,
          record (record w createReq (createResp env w)) (seedReq env w) (seedResp env w)) := by
  have e2 : CURAND_CALL (respond env (record w createReq (createResp env w)) (seedReq env w)).status
      = .ok () := CURAND_CALL_ok h2
  unfold CurandContext.ctor
  simp only []
  rw [show respond env w (.curandCreateGenerator CURAND_RNG_PSEUDO_DEFAULT)
    = createResp env w from rfl, CURAND_CALL_ok h1]
  simp only []
  unfold seedReq createReq at e2
  rw [e2]
  rfl

theorem global_some (env : Env) (w : World) (g : Nat) (h : w.ctx = some g) :
    CurandContext.global env w = (.ok g, w) := by
  unfold CurandContext.global
  rw [h]

theorem global_create_fails (env : Env) (w : World) (h : w.ctx = none)
    (h1 : (createResp env w).status ≠ CURAND_STATUS_SUCCESS) :
    CurandContext.global env w
      = (.error (.curand (createResp env w).status), record w createReq (createResp env w)) := by
  unfold CurandContext.global
  rw [h]
  simp only []
  rw [ctor_create_fails env w h1]

theorem global_seed_fails (env : Env) (w : World) (h : w.ctx = none)
    (h1 : (createResp env w).status = CURAND_STATUS_SUCCESS)
    (h2 : (seedResp env w).status ≠ CURAND_STATUS_SUCCESS) :
    CurandContext.global env w
      = (.error (.curand (seedResp env w).status),
          record (record w createReq (createResp env w)) (seedReq env w) (seedResp env w)) := by
  unfold CurandContext.global
  rw [h]
  simp only []
  rw [ctor_seed_fails env w h1 h2]

theorem global_succeeds (env : Env) (w : World) (h : w.ctx = none)
    (h1 : (createResp env w).status = CURAND_STATUS_SUCCESS)
    (h2 : (seedResp env w).status = CURAND_STATUS_SUCCESS) :
    CurandContext.global env w
      = (.ok (createResp env w).out,
          { record (record w createReq (createResp env w)) (seedReq env w) (seedResp env w)
            with ctx := some (createResp env w).out }) := by
  unfold CurandContext.global
  rw [h]
  simp only []
  rw [ctor_succeeds env w h1 h2]

/-- A random fill is the context lookup followed by the generation request. -/
theorem step_fill (env : Env) (op : Op) (w : World) (h : op.isRandomFill = true) :
    step env op w
      = Outcome.ret (fun _ => Ret.void)
          (match CurandContext.global env w with
           | (.error e, w1) => (.error e, w1)
           | (.ok g, w1) => checkedRand env (fillReq op g) w1) := by
  cases op <;> simp [Op.isRandomFill] at h <;> rfl

theorem step_fill_some (env : Env) (op : Op) (w : World) (g : Nat)
    (h : op.isRandomFill = true) (hc : w.ctx = some g) :
    step env op w = Outcome.ret (fun _ => Ret.void) (checkedRand env (fillReq op g) w) := by
  rw [step_fill env op w h, global_some env w g hc]

theorem step_fill_create_fails (env : Env) (op : Op) (w : World)
    (h : op.isRandomFill = true) (hc : w.ctx = none)
    (h1 : (createResp env w).status ≠ CURAND_STATUS_SUCCESS) :
    step env op w
      = (.error (.curand (createResp env w).status), record w createReq (createResp env w)) := by
  rw [step_fill env op w h, global_create_fails env w hc h1]
  rfl

theorem step_fill_seed_fails (env : Env) (op : Op) (w : World)
    (h : op.isRandomFill = true) (hc : w.ctx = none)
    (h1 : (createResp env w).status = CURAND_STATUS_SUCCESS)
    (h2 : (seedResp env w).status ≠ CURAND_STATUS_SUCCESS) :
    step env op w
      = (.error (.curand (seedResp env w).status),
          record (record w createReq (createResp env w)) (seedReq env w) (seedResp env w)) := by
  rw [step_fill env op w h, global_seed_fails env w hc h1 h2]
  rfl

theorem step_fill_succeeds (env : Env) (op : Op) (w : World)
    (h : op.isRandomFill = true) (hc : w.ctx = none)
    (h1 : (createResp env w).status = CURAND_STATUS_SUCCESS)
    (h2 : (seedResp env w).status = CURAND_STATUS_SUCCESS) :
    step env op w
      = Outcome.ret (fun _ => Ret.void)
          (checkedRand env (fillReq op (createResp env w).out)
            { record (record w createReq (createResp env w)) (seedReq env w) (seedResp env w)
              with ctx := some (createResp env w).out }) := by
  rw [step_fill env op w h, global_succeeds env w hc h1 h2]

/-- The pool trim when the lookup of the default pool fails. -/
theorem trim_lookup_fails (env : Env) (n : Nat) (w : World)
    (h1 : (respond env w (.cudaDeviceGetDefaultMemPool 0)).status ≠ cudaSuccess) :
    hidet_cuda_mem_pool_trim_to env n w
      = (.error (.cuda (respond env w (.cudaDeviceGetDefaultMemPool 0)).status),
          record w (.cudaDeviceGetDefaultMemPool 0)
            (respond env w (.cudaDeviceGetDefaultMemPool 0))) := by
  unfold hidet_cuda_mem_pool_trim_to
  simp only []
  rw [CUDA_CALL_error h1]

/-- The pool trim when the lookup of the default pool succeeds. -/
theorem trim_lookup_succeeds (env : Env) (n : Nat) (w : World)
    (h1 : (respond env w (.cudaDeviceGetDefaultMemPool 0)).status = cudaSuccess) :
    hidet_cuda_mem_pool_trim_to env n w
      = checkedCall env
          (.cudaMemPoolTrimTo (respond env w (.cudaDeviceGetDefaultMemPool 0)).out n)
          (fun _ => ())
          (record w (.cudaDeviceGetDefaultMemPool 0)
            (respond env w (.cudaDeviceGetDefaultMemPool 0))) := by
  unfold hidet_cuda_mem_pool_trim_to
  simp only []
  rw [CUDA_CALL_ok h1]
  rfl

theorem step_single_world (env : Env) (op : Op) (w : World) (req : Request)
    (h : op.request? = some req) :
    (step env op w).2 = record w req (respond env w req) := by
  cases op <;> simp [Op.request?] at h <;> subst h
  case malloc_async bytes =>
    show (Outcome.ret _ (hidet_cuda_malloc_async env bytes w)).2 = _
    rw [ret_world]
    unfold hidet_cuda_malloc_async
    by_cases h1 : (respond env w (.cudaMallocAsync bytes nullptr)).status
        = cudaErrorMemoryAllocation
    · simp only [h1, if_true]
    · simp only [h1, if_false]
      by_cases h2 : (respond env w (.cudaMallocAsync bytes nullptr)).status = cudaSuccess
      · rw [CUDA_CALL_ok h2]
      · rw [CUDA_CALL_error h2]
  all_goals first
    | exact (ret_world _ _).trans (checkedCall_world env _ (fun _ => ()) w)
    | exact (ret_world _ _).trans
        (checkedCall_world env _ (fun r => reinterpret_cast_uint64 r.out) w)
    | exact (ret_world _ _).trans (checkedCall_world env _ (fun r => r.out) w)
    | exact (ret_world _ _).trans (checkedCall_world env _ (fun r => (r.out, r.out2)) w)

theorem step_single_threw (env : Env) (op : Op) (w : World) (req : Request)
    (h : op.request? = some req) (hm : op.isMallocAsync = false) :
    threw (step env op w) = decide ((respond env w req).status ≠ cudaSuccess) := by
  cases op <;> simp [Op.request?] at h <;> subst h
  case malloc_async bytes => simp [Op.isMallocAsync] at hm
  all_goals first
    | exact (ret_threw _ _).trans (checkedCall_threw env _ (fun _ => ()) w)
    | exact (ret_threw _ _).trans
        (checkedCall_threw env _ (fun r => reinterpret_cast_uint64 r.out) w)
    | exact (ret_threw _ _).trans (checkedCall_threw env _ (fun r => r.out) w)
    | exact (ret_threw _ _).trans (checkedCall_threw env _ (fun r => (r.out, r.out2)) w)

theorem step_malloc_threw (env : Env) (bytes : Nat) (w : World) :
    threw (step env (.malloc_async bytes) w)
      = decide ((respond env w (.cudaMallocAsync bytes nullptr)).status ≠ cudaSuccess ∧
          (respond env w (.cudaMallocAsync bytes nullptr)).status
            ≠ cudaErrorMemoryAllocation) := by
  show threw (Outcome.ret _ (hidet_cuda_malloc_async env bytes w)) = _
  rw [ret_threw]
  unfold hidet_cuda_malloc_async
  by_cases h1 : (respond env w (.cudaMallocAsync bytes nullptr)).status
      = cudaErrorMemoryAllocation
  · simp [h1, threw]
  · simp only [h1, if_false]
    by_cases h2 : (respond env w (.cudaMallocAsync bytes nullptr)).status = cudaSuccess
    · rw [CUDA_CALL_ok h2]; simp [threw, h2]
    · rw [CUDA_CALL_error h2]; simp [threw, h1, h2]

theorem request?_plain (op : Op) (req : Request) (h : op.request? = some req) :
    req.successStatus = cudaSuccess ∧ req.isCreate = false ∧ req.isSeed = false ∧
      req.isGenerate = false ∧ req.isTrim = false ∧ req ≠ poolReq ∧
      op.isRandomFill = false := by
  cases op <;> simp [Op.request?] at h <;> subst h <;>
    simp [Request.successStatus, Request.isCreate, Request.isSeed,
      Request.isGenerate, Request.isTrim, poolReq, Op.isRandomFill]

theorem op_cases (op : Op) :
    (∃ req, op.request? = some req) ∨ op.isRandomFill = true ∨
      (∃ n, op = .mem_pool_trim_to n) := by
  cases op <;> simp [Op.request?, Op.isRandomFill]

theorem fillReq_generate (op : Op) (g : Nat) :
    (fillReq op g).isGenerate = true ∧ (fillReq op g).generator? = some g ∧
      (fillReq op g).successStatus = CURAND_STATUS_SUCCESS ∧
      (fillReq op g).isCreate = false ∧ (fillReq op g).isSeed = false ∧
      (fillReq op g).isTrim = false ∧ fillReq op g ≠ poolReq := by
  cases op <;> simp [fillReq, Request.isGenerate, Request.generator?, Request.successStatus,
    Request.isCreate, Request.isSeed, Request.isTrim, poolReq]

/-- Every call is in exactly one of seven situations; in each the world it leaves and whether
it throws are explicit. -/
theorem step_cases (env : Env) (op : Op) (w : World) :
    (∃ req, op.request? = some req ∧
      (step env op w).2 = record w req (respond env w req) ∧
      (threw (step env op w) = true → (respond env w req).status ≠ cudaSuccess) ∧
      (op.isMallocAsync = false → (respond env w req).status ≠ cudaSuccess →
        threw (step env op w) = true)) ∨
    (∃ n, op = .mem_pool_trim_to n ∧ (respond env w poolReq).status ≠ cudaSuccess ∧
      (step env op w).2 = record w poolReq (respond env w poolReq) ∧
      threw (step env op w) = true) ∨
    (∃ n, op = .mem_pool_trim_to n ∧ (respond env w poolReq).status = cudaSuccess ∧
      (step env op w).2
        = record (record w poolReq (respond env w poolReq))
            (.cudaMemPoolTrimTo (respond env w poolReq).out n)
            (respond env (record w poolReq (respond env w poolReq))
              (.cudaMemPoolTrimTo (respond env w poolReq).out n)) ∧
      threw (step env op w)
        = decide ((respond env (record w poolReq (respond env w poolReq))
            (.cudaMemPoolTrimTo (respond env w poolReq).out n)).status ≠ cudaSuccess)) ∨
    (op.isRandomFill = true ∧ ∃ g, w.ctx = some g ∧
      (step env op w).2 = record w (fillReq op g) (respond env w (fillReq op g)) ∧
      threw (step env op w)
        = decide ((respond env w (fillReq op g)).status ≠ CURAND_STATUS_SUCCESS)) ∨
    (op.isRandomFill = true ∧ w.ctx = none ∧
      (createResp env w).status ≠ CURAND_STATUS_SUCCESS ∧
      (step env op w).2 = record w createReq (createResp env w) ∧
      threw (step env op w) = true) ∨
    (op.isRandomFill = true ∧ w.ctx = none ∧
      (createResp env w).status = CURAND_STATUS_SUCCESS ∧
      (seedResp env w).status ≠ CURAND_STATUS_SUCCESS ∧
      (step env op w).2
        = record (record w createReq (createResp env w)) (seedReq env w) (seedResp env w) ∧
      threw (step env op w) = true) ∨
    (op.isRandomFill = true ∧ w.ctx = none ∧
      (createResp env w).status = CURAND_STATUS_SUCCESS ∧
      (seedResp env w).status = CURAND_STATUS_SUCCESS ∧
      (step env op w).2
        = record (seeded env w) (fillReq op (createResp env w).out)
            (respond env (seeded env w) (fillReq op (createResp env w).out)) ∧
      threw (step env op w)
        = decide ((respond env (seeded env w) (fillReq op (createResp env w).out)).status
            ≠ CURAND_STATUS_SUCCESS)) := by
  rcases op_cases op with ⟨req, hr⟩ | hf | ⟨n, rfl⟩
  · left
    refine ⟨req, hr, step_single_world env op w req hr, ?_, ?_⟩
    · intro ht
      by_cases hm : op.isMallocAsync = false
      · rw [step_single_threw env op w req hr hm] at ht
        simpa using ht
      · cases op <;> simp [Op.isMallocAsync] at hm
        rw [step_malloc_threw] at ht
        simp [Op.request?] at hr
        subst hr
        simp at ht
        exact ht.1
    · intro hm hs
      rw [step_single_threw env op w req hr hm]
      simpa using hs
  · right; right; right
    cases hc : w.ctx with
    | some g =>
      left
      refine ⟨hf, g, rfl, ?_, ?_⟩
      · rw [step_fill_some env op w g hf hc, ret_world, checkedRand_world]
      · rw [step_fill_some env op w g hf hc, ret_threw, checkedRand_threw]
    | none =>
      right
      by_cases h1 : (createResp env w).status = CURAND_STATUS_SUCCESS
      · right
        by_cases h2 : (seedResp env w).status = CURAND_STATUS_SUCCESS
        · right
          refine ⟨hf, rfl, h1, h2, ?_, ?_⟩
          · rw [step_fill_succeeds env op w hf hc h1 h2, ret_world, checkedRand_world]; rfl
          · rw [step_fill_succeeds env op w hf hc h1 h2, ret_threw, checkedRand_threw]; rfl
        · left
          refine ⟨hf, rfl, h1, h2, ?_, ?_⟩
          · rw [step_fill_seed_fails env op w hf hc h1 h2]
          · rw [step_fill_seed_fails env op w hf hc h1 h2]; rfl
      · left
        refine ⟨hf, rfl, h1, ?_, ?_⟩
        · rw [step_fill_create_fails env op w hf hc h1]
        · rw [step_fill_create_fails env op w hf hc h1]; rfl
  · right
    by_cases h1 : (respond env w poolReq).status = cudaSuccess
    · right; left
      refine ⟨n, rfl, h1, ?_, ?_⟩
      · show (Outcome.ret _ (hidet_cuda_mem_pool_trim_to env n w)).2 = _
        rw [ret_world, trim_lookup_succeeds env n w h1, checkedCall_world]; rfl
      · show threw (Outcome.ret _ (hidet_cuda_mem_pool_trim_to env n w)) = _
        rw [ret_threw, trim_lookup_succeeds env n w h1, checkedCall_threw]; rfl
    · left
      refine ⟨n, rfl, h1, ?_, ?_⟩
      · show (Outcome.ret _ (hidet_cuda_mem_pool_trim_to env n w)).2 = _
        rw [ret_world, trim_lookup_fails env n w h1]; rfl
      · show threw (Outcome.ret _ (hidet_cuda_mem_pool_trim_to env n w)) = _
        rw [ret_threw, trim_lookup_fails env n w h1]; rfl

theorem issued_of_world (env : Env) (op : Op) (w w1 : World) (es : List Event)
    (h : (step env op w).2 = w1) (ht : w1.trace = w.trace ++ es) : issued env op w = es := by
  unfold issued
  exact issuedSince_append w _ es (h ▸ ht)

/-- The seven situations of `step_cases`, with the requests made, the context left and
whether the call throws. -/
theorem issued_cases (env : Env) (op : Op) (w : World) :
    (∃ req, op.request? = some req ∧
      issued env op w = [⟨req, respond env w req⟩] ∧ (step env op w).2.ctx = w.ctx ∧
      (threw (step env op w) = true → (respond env w req).status ≠ cudaSuccess) ∧
      (op.isMallocAsync = false → (respond env w req).status ≠ cudaSuccess →
        threw (step env op w) = true)) ∨
    (∃ n, op = .mem_pool_trim_to n ∧ (respond env w poolReq).status ≠ cudaSuccess ∧
      issued env op w = [⟨poolReq, respond env w poolReq⟩] ∧ (step env op w).2.ctx = w.ctx ∧
      threw (step env op w) = true) ∨
    (∃ n, op = .mem_pool_trim_to n ∧ (respond env w poolReq).status = cudaSuccess ∧
      issued env op w
        = [⟨poolReq, respond env w poolReq⟩, ⟨trimReq env w n, trimResp env w n⟩] ∧
      (step env op w).2.ctx = w.ctx ∧
      threw (step env op w) = decide ((trimResp env w n).status ≠ cudaSuccess)) ∨
    (op.isRandomFill = true ∧ ∃ g, w.ctx = some g ∧
      issued env op w = [⟨fillReq op g, respond env w (fillReq op g)⟩] ∧
      (step env op w).2.ctx = some g ∧
      threw (step env op w)
        = decide ((respond env w (fillReq op g)).status ≠ CURAND_STATUS_SUCCESS)) ∨
    (op.isRandomFill = true ∧ w.ctx = none ∧
      (createResp env w).status ≠ CURAND_STATUS_SUCCESS ∧
      issued env op w = [⟨createReq, createResp env w⟩] ∧ (step env op w).2.ctx = none ∧
      threw (step env op w) = true) ∨
    (op.isRandomFill = true ∧ w.ctx = none ∧
      (createResp env w).status = CURAND_STATUS_SUCCESS ∧
      (seedResp env w).status ≠ CURAND_STATUS_SUCCESS ∧
      issued env op w = [⟨createReq, createResp env w⟩, ⟨seedReq env w, seedResp env w⟩] ∧
      (step env op w).2.ctx = none ∧
      threw (step env op w) = true) ∨
    (op.isRandomFill = true ∧ w.ctx = none ∧
      (createResp env w).status = CURAND_STATUS_SUCCESS ∧
      (seedResp env w).status = CURAND_STATUS_SUCCESS ∧
      issued env op w
        = [⟨createReq, createResp env w⟩, ⟨seedReq env w, seedResp env w⟩,
           ⟨fillReq op (createResp env w).out,
            respond env (seeded env w) (fillReq op (createResp env w).out)⟩] ∧
      (step env op w).2.ctx = some (createResp env w).out ∧
      threw (step env op w)
        = decide ((respond env (seeded env w) (fillReq op (createResp env w).out)).status
            ≠ CURAND_STATUS_SUCCESS)) := by
  rcases step_cases env op w with ⟨req, hr, hw, h1, h2⟩ | ⟨n, rfl, h1, hw, ht⟩ |
    ⟨n, rfl, h1, hw, ht⟩ | ⟨hf, g, hc, hw, ht⟩ | ⟨hf, hc, h1, hw, ht⟩ |
    ⟨hf, hc, h1, h2, hw, ht⟩ | ⟨hf, hc, h1, h2, hw, ht⟩
  · exact Or.inl ⟨req, hr, issued_of_world env op w _ _ hw rfl, by rw [hw]; rfl, h1, h2⟩
  · exact Or.inr (Or.inl ⟨n, rfl, h1, issued_of_world env _ w _ _ hw rfl, by rw [hw]; rfl, ht⟩)
  · exact Or.inr (Or.inr (Or.inl ⟨n, rfl, h1,
      issued_of_world env _ w _ _ hw (by simp [record, trimReq, trimResp]),
      by rw [hw]; rfl, ht⟩))
  · exact Or.inr (Or.inr (Or.inr (Or.inl ⟨hf, g, hc, issued_of_world env _ w _ _ hw rfl,
      by rw [hw]; exact hc, ht⟩)))
  · exact Or.inr (Or.inr (Or.inr (Or.inr (Or.inl ⟨hf, hc, h1,
      issued_of_world env _ w _ _ hw rfl, by rw [hw]; exact hc, ht⟩))))
  · exact Or.inr (Or.inr (Or.inr (Or.inr (Or.inr (Or.inl ⟨hf, hc, h1, h2,
      issued_of_world env _ w _ _ hw (by simp [record]), by rw [hw]; exact hc, ht⟩)))))
  · exact Or.inr (Or.inr (Or.inr (Or.inr (Or.inr (Or.inr ⟨hf, hc, h1, h2,
      issued_of_world env _ w _ _ hw (by simp [record, seeded]), by rw [hw]; rfl, ht⟩)))))

theorem step_trace (env : Env) (op : Op) (w : World) :
    (step env op w).2.trace = w.trace ++ issued env op w := by
  rcases step_cases env op w with ⟨req, hr, hw, h1, h2⟩ | ⟨n, rfl, h1, hw, ht⟩ |
    ⟨n, rfl, h1, hw, ht⟩ | ⟨hf, g, hc, hw, ht⟩ | ⟨hf, hc, h1, hw, ht⟩ |
    ⟨hf, hc, h1, h2, hw, ht⟩ | ⟨hf, hc, h1, h2, hw, ht⟩ <;>
  · unfold issued issuedSince
    rw [hw]
    simp [record, seeded]

theorem free_host_eq (env : Env) (addr : Nat) (w : World) :
    hidet_cuda_free_host env addr w = checkedCall env (.cudaFreeHost addr) (fun _ => ()) w :=
  rfl

theorem failed_iff (req : Request) (resp : Response) :
    Event.failed ⟨req, resp⟩ = true ↔ resp.status ≠ req.successStatus := by
  simp [Event.failed]

theorem createReq_facts :
    createReq.successStatus = CURAND_STATUS_SUCCESS ∧ createReq.isCreate = true ∧
      createReq.isSeed = false ∧ createReq.isGenerate = false ∧ createReq.isTrim = false ∧
      createReq ≠ poolReq := by
  decide

theorem seedReq_facts (env : Env) (w : World) :
    (seedReq env w).successStatus = CURAND_STATUS_SUCCESS ∧ (seedReq env w).isCreate = false ∧
      (seedReq env w).isSeed = true ∧ (seedReq env w).isGenerate = false ∧
      (seedReq env w).isTrim = false ∧ seedReq env w ≠ poolReq ∧
      (seedReq env w).generator? = some (createResp env w).out := by
  simp [seedReq, Request.successStatus, Request.isCreate, Request.isSeed, Request.isGenerate,
    Request.isTrim, poolReq, Request.generator?]

theorem poolReq_facts :
    poolReq.successStatus = cudaSuccess ∧ poolReq.isCreate = false ∧
      poolReq.isSeed = false ∧ poolReq.isGenerate = false ∧ poolReq.isTrim = false := by
  decide

theorem trimReq_facts (env : Env) (w : World) (n : Nat) :
    (trimReq env w n).successStatus = cudaSuccess ∧ (trimReq env w n).isCreate = false ∧
      (trimReq env w n).isSeed = false ∧ (trimReq env w n).isGenerate = false ∧
      (trimReq env w n).isTrim = true ∧ trimReq env w n ≠ poolReq := by
  simp [trimReq, Request.successStatus, Request.isCreate, Request.isSeed, Request.isGenerate,
    Request.isTrim, poolReq]

/-- In the requests of one call, a request answered with a non-success status is the last. -/
theorem failed_is_last (env : Env) (op : Op) (w : World) (pre post : List Event) (e : Event)
    (hi : issued env op w = pre ++ e :: post) (hf : e.failed = true) : post = [] := by
  rcases issued_cases env op w with ⟨req, hr, hw, hc, h1, h2⟩ | ⟨n, rfl, h1, hw, hc, ht⟩ |
    ⟨n, rfl, h1, hw, hc, ht⟩ | ⟨hr, g, hg, hw, hc, ht⟩ | ⟨hr, hg, h1, hw, hc, ht⟩ |
    ⟨hr, hg, h1, h2, hw, hc, ht⟩ | ⟨hr, hg, h1, h2, hw, hc, ht⟩
  all_goals rw [hw] at hi
  · rcases pre with _ | ⟨a, pre⟩ <;> simp at hi
    exact hi.2
  · rcases pre with _ | ⟨a, pre⟩ <;> simp at hi
    exact hi.2
  · rcases pre with _ | ⟨a, _ | ⟨b, pre⟩⟩ <;> simp at hi
    · rw [← hi.1, failed_iff, poolReq_facts.1] at hf
      exact absurd h1 hf
    · exact hi.2.2
  · rcases pre with _ | ⟨a, pre⟩ <;> simp at hi
    exact hi.2
  · rcases pre with _ | ⟨a, pre⟩ <;> simp at hi
    exact hi.2
  · rcases pre with _ | ⟨a, _ | ⟨b, pre⟩⟩ <;> simp at hi
    · rw [← hi.1, failed_iff, createReq_facts.1] at hf
      exact absurd h1 hf
    · exact hi.2.2
  · rcases pre with _ | ⟨a, _ | ⟨b, _ | ⟨c, pre⟩⟩⟩ <;> simp at hi
    · rw [← hi.1, failed_iff, createReq_facts.1] at hf
      exact absurd h1 hf
    · rw [← hi.2.1, failed_iff, (seedReq_facts env w).1] at hf
      exact absurd h2 hf
    · exact hi.2.2.2

/-- A call other than the pooled allocation throws exactly when a request of it failed. -/
theorem threw_iff_failed (env : Env) (op : Op) (w : World) (hm : op.isMallocAsync = false) :
    threw (step env op w) = true ↔ ∃ e ∈ issued env op w, e.failed = true := by
  rcases issued_cases env op w with ⟨req, hr, hw, hc, h1, h2⟩ | ⟨n, rfl, h1, hw, hc, ht⟩ |
    ⟨n, rfl, h1, hw, hc, ht⟩ | ⟨hr, g, hg, hw, hc, ht⟩ | ⟨hr, hg, h1, hw, hc, ht⟩ |
    ⟨hr, hg, h1, h2, hw, hc, ht⟩ | ⟨hr, hg, h1, h2, hw, hc, ht⟩
  all_goals rw [hw]
  · have hp := (request?_plain op req hr).1
    constructor
    · intro h
      exact ⟨_, List.mem_singleton.2 rfl, (failed_iff _ _).2 (hp ▸ h1 h)⟩
    · rintro ⟨e, he, hfail⟩
      rw [List.mem_singleton.1 he, failed_iff, hp] at hfail
      exact h2 hm hfail
  · simp [ht, failed_iff, poolReq_facts.1, h1]
  · simp [ht, failed_iff, poolReq_facts.1, h1, (trimReq_facts env w n).1]
  · simp [ht, failed_iff, (fillReq_generate op g).2.2.1]
  · simp [ht, failed_iff, createReq_facts.1, h1]
  · simp [ht, failed_iff, createReq_facts.1, h1, (seedReq_facts env w).1, h2]
  · simp [ht, failed_iff, createReq_facts.1, h1, (seedReq_facts env w).1, h2,
      (fillReq_generate op _).2.2.1]

/-! ## Error propagation -/

/-- C3: a call other than `hidet_cuda_malloc_async` throws if and only if one of the requests
it made was answered with a non-success status, and after such an answer it makes no further
request (no retry, no continuation). In particular `hidet_cuda_free_host` makes the one
request `cudaFreeHost(addr)`, throws whenever that request fails, and returns normally only
when it succeeded. -/
theorem throws_iff_request_failed (env : Env) (op : Op) (w : World)
    (hm : op.isMallocAsync = false) :
    (threw (step env op w) = true ↔ ∃ e ∈ issued env op w, e.failed = true) ∧
    (∀ pre e post, issued env op w = pre ++ e :: post → e.failed = true → post = []) ∧
    (∀ addr,
      requests (issuedSince w (hidet_cuda_free_host env addr w)) = [.cudaFreeHost addr] ∧
      ((respond env w (.cudaFreeHost addr)).status ≠ cudaSuccess →
        (hidet_cuda_free_host env addr w).1
          = .error (.cuda (respond env w (.cudaFreeHost addr)).status)) ∧
      ((hidet_cuda_free_host env addr w).1 = .ok () →
        (respond env w (.cudaFreeHost addr)).status = cudaSuccess)) := by
  refine ⟨threw_iff_failed env op w hm, fun pre e post => failed_is_last env op w pre post e,
    ?_⟩
  intro addr
  refine ⟨?_, ?_, ?_⟩
  · rw [issuedSince_append w _ [⟨.cudaFreeHost addr, respond env w (.cudaFreeHost addr)⟩]
      (by rw [free_host_eq, checkedCall_world]; rfl)]
    rfl
  · intro h
    rw [free_host_eq]
    unfold checkedCall
    rw [CUDA_CALL_error h]
  · intro h
    by_contra hne
    rw [free_host_eq] at h
    unfold checkedCall at h
    rw [CUDA_CALL_error hne] at h
    simp at h

/-- C3, at a driver that fails the pinned free with status 1: `hidet_cuda_free_host` throws,
and the failed request is the one it made. -/
theorem throws_iff_request_failed_witness :
    threw (step (constEnv 1 0) (.free_host 4096) World.start) = true ∧
    (hidet_cuda_free_host (constEnv 1 0) 4096 World.start).1 = .error (.cuda 1) :=
  ⟨(throws_iff_request_failed (constEnv 1 0) (.free_host 4096) World.start rfl).1.2
      ⟨⟨.cudaFreeHost 4096, ⟨1, 0, 0⟩⟩, by decide, by decide⟩,
   ((throws_iff_request_failed (constEnv 1 0) (.free_host 4096) World.start rfl).2.2
      4096).2.1 (by decide)⟩

/-- A call that throws made its requests up to the first failed one: all before it succeeded
and it is the last. -/
theorem threw_shape (env : Env) (op : Op) (w : World) (ht : threw (step env op w) = true) :
    ∃ pre e, issued env op w = pre ++ [e] ∧ e.failed = true ∧ ∀ x ∈ pre, x.failed = false := by
  rcases issued_cases env op w with ⟨req, hr, hw, hc, h1, h2⟩ | ⟨n, rfl, h1, hw, hc, ht2⟩ |
    ⟨n, rfl, h1, hw, hc, ht2⟩ | ⟨hr, g, hg, hw, hc, ht2⟩ | ⟨hr, hg, h1, hw, hc, ht2⟩ |
    ⟨hr, hg, h1, h2, hw, hc, ht2⟩ | ⟨hr, hg, h1, h2, hw, hc, ht2⟩
  · refine ⟨[], _, hw, ?_, by simp⟩
    rw [failed_iff, (request?_plain op req hr).1]
    exact h1 ht
  · refine ⟨[], _, hw, ?_, by simp⟩
    rw [failed_iff, poolReq_facts.1]
    exact h1
  · refine ⟨[_], _, hw, ?_, ?_⟩
    · rw [failed_iff, (trimReq_facts env w n).1]
      rw [ht2] at ht
      simpa using ht
    · simp [Event.failed, poolReq_facts.1, h1]
  · refine ⟨[], _, hw, ?_, by simp⟩
    rw [failed_iff, (fillReq_generate op g).2.2.1]
    rw [ht2] at ht
    simpa using ht
  · refine ⟨[], _, hw, ?_, by simp⟩
    rw [failed_iff, createReq_facts.1]
    exact h1
  · refine ⟨[_], _, hw, ?_, ?_⟩
    · rw [failed_iff, (seedReq_facts env w).1]
      exact h2
    · simp [Event.failed, createReq_facts.1, h1]
  · refine ⟨[_, _], _, hw, ?_, ?_⟩
    · rw [failed_iff, (fillReq_generate op _).2.2.1]
      rw [ht2] at ht
      simpa using ht
    · simp [Event.failed, createReq_facts.1, h1, (seedReq_facts env w).1, h2]

/-- When the lookup of the default pool failed, the call made no trim request. -/
theorem no_trim_after_failed_lookup (env : Env) (op : Op) (w : World) (e x : Event)
    (he : e ∈ issued env op w) (hf : e.failed = true) (hp : e.req = poolReq)
    (hx : x ∈ issued env op w) : x.req.isTrim = false := by
  rcases issued_cases env op w with ⟨req, hr, hw, hc, h1, h2⟩ | ⟨n, rfl, h1, hw, hc, ht2⟩ |
    ⟨n, rfl, h1, hw, hc, ht2⟩ | ⟨hr, g, hg, hw, hc, ht2⟩ | ⟨hr, hg, h1, hw, hc, ht2⟩ |
    ⟨hr, hg, h1, h2, hw, hc, ht2⟩ | ⟨hr, hg, h1, h2, hw, hc, ht2⟩
  all_goals rw [hw] at he hx
  · simp at hx; subst hx
    exact (request?_plain op req hr).2.2.2.2.1
  · simp at hx; subst hx
    exact poolReq_facts.2.2.2.2
  · simp at he
    rcases he with rfl | rfl
    · rw [failed_iff, poolReq_facts.1] at hf
      exact absurd h1 hf
    · exact absurd hp (trimReq_facts env w n).2.2.2.2.2
  · simp at hx; subst hx
    exact (fillReq_generate op g).2.2.2.2.2.1
  · simp at hx; subst hx
    exact createReq_facts.2.2.2.2.1
  · simp at hx
    rcases hx with rfl | rfl
    · exact createReq_facts.2.2.2.2.1
    · exact (seedReq_facts env w).2.2.2.2.1
  · simp at hx
    rcases hx with rfl | rfl | rfl
    · exact createReq_facts.2.2.2.2.1
    · exact (seedReq_facts env w).2.2.2.2.1
    · exact (fillReq_generate op _).2.2.2.2.2.1

/-- When creating or seeding the generator failed, the call made no generation request. -/
theorem no_generate_after_failed_setup (env : Env) (op : Op) (w : World) (e x : Event)
    (he : e ∈ issued env op w) (hf : e.failed = true)
    (hp : e.req.isCreate = true ∨ e.req.isSeed = true)
    (hx : x ∈ issued env op w) : x.req.isGenerate = false := by
  rcases issued_cases env op w with ⟨req, hr, hw, hc, h1, h2⟩ | ⟨n, rfl, h1, hw, hc, ht2⟩ |
    ⟨n, rfl, h1, hw, hc, ht2⟩ | ⟨hr, g, hg, hw, hc, ht2⟩ | ⟨hr, hg, h1, hw, hc, ht2⟩ |
    ⟨hr, hg, h1, h2, hw, hc, ht2⟩ | ⟨hr, hg, h1, h2, hw, hc, ht2⟩
  all_goals rw [hw] at he hx
  · simp at hx; subst hx
    exact (request?_plain op req hr).2.2.2.1
  · simp at hx; subst hx
    exact poolReq_facts.2.2.2.1
  · simp at hx
    rcases hx with rfl | rfl
    · exact poolReq_facts.2.2.2.1
    · exact (trimReq_facts env w n).2.2.2.1
  · simp at he; subst he
    have := fillReq_generate op g
    simp [this.2.2.2.1, this.2.2.2.2.1] at hp
  · simp at hx; subst hx
    exact createReq_facts.2.2.2.1
  · simp at hx
    rcases hx with rfl | rfl
    · exact createReq_facts.2.2.2.1
    · exact (seedReq_facts env w).2.2.2.1
  · simp at he
    rcases he with rfl | rfl | rfl
    · rw [failed_iff, createReq_facts.1] at hf
      exact absurd h1 hf
    · rw [failed_iff, (seedReq_facts env w).1] at hf
      exact absurd h2 hf
    · have := fillReq_generate op (createResp env w).out
      simp [this.2.2.2.1, this.2.2.2.2.1] at hp

/-- When creating the generator failed, the call made no seeding request. -/
theorem no_seed_after_failed_create (env : Env) (op : Op) (w : World) (e x : Event)
    (he : e ∈ issued env op w) (hf : e.failed = true) (hp : e.req.isCreate = true)
    (hx : x ∈ issued env op w) : x.req.isSeed = false := by
  rcases issued_cases env op w with ⟨req, hr, hw, hc, h1, h2⟩ | ⟨n, rfl, h1, hw, hc, ht2⟩ |
    ⟨n, rfl, h1, hw, hc, ht2⟩ | ⟨hr, g, hg, hw, hc, ht2⟩ | ⟨hr, hg, h1, hw, hc, ht2⟩ |
    ⟨hr, hg, h1, h2, hw, hc, ht2⟩ | ⟨hr, hg, h1, h2, hw, hc, ht2⟩
  all_goals rw [hw] at he hx
  · simp at hx; subst hx
    exact (request?_plain op req hr).2.2.1
  · simp at hx; subst hx
    exact poolReq_facts.2.2.1
  · simp at hx
    rcases hx with rfl | rfl
    · exact poolReq_facts.2.2.1
    · exact (trimReq_facts env w n).2.2.1
  · simp at hx; subst hx
    exact (fillReq_generate op g).2.2.2.2.1
  · simp at hx; subst hx
    exact createReq_facts.2.2.1
  · simp at he
    rcases he with rfl | rfl
    · rw [failed_iff, createReq_facts.1] at hf
      exact absurd h1 hf
    · simp [(seedReq_facts env w).2.1] at hp
  · simp at he
    rcases he with rfl | rfl | rfl
    · rw [failed_iff, createReq_facts.1] at hf
      exact absurd h1 hf
    · simp [(seedReq_facts env w).2.1] at hp
    · simp [(fillReq_generate op _).2.2.2.1] at hp

/-- C7: when a call throws, the requests it made end with the failed one and every request
before it succeeded, so nothing was requested after the failure. In particular, in every
call: after a failed lookup of the default pool no trim request was made; after a failed
creation or seeding of the generator no generation request was made; after a failed
creation no seeding request was made. -/
theorem nothing_requested_after_failure (env : Env) (op : Op) (w : World)
    (ht : threw (step env op w) = true) :
    (∃ pre e, issued env op w = pre ++ [e] ∧ e.failed = true ∧
      ∀ x ∈ pre, x.failed = false) ∧
    (∀ e ∈ issued env op w, e.failed = true → e.req = .cudaDeviceGetDefaultMemPool 0 →
      ∀ x ∈ issued env op w, x.req.isTrim = false) ∧
    (∀ e ∈ issued env op w, e.failed = true →
      (e.req.isCreate = true ∨ e.req.isSeed = true) →
      ∀ x ∈ issued env op w, x.req.isGenerate = false) ∧
    (∀ e ∈ issued env op w, e.failed = true → e.req.isCreate = true →
      ∀ x ∈ issued env op w, x.req.isSeed = false) :=
  ⟨threw_shape env op w ht,
   fun e he hf hp x hx => no_trim_after_failed_lookup env op w e x he hf hp hx,
   fun e he hf hp x hx => no_generate_after_failed_setup env op w e x he hf hp hx,
   fun e he hf hp x hx => no_seed_after_failed_create env op w e x he hf hp hx⟩

/-- C7, at three failing drivers: the pool trim whose lookup fails makes the lookup only; the
random fill whose generator cannot be created makes the creation request only; the random
fill whose seeding fails makes the creation and the seeding request only. -/
theorem nothing_requested_after_failure_witness :
    (∃ pre e, issued poolLookupFailsEnv (.mem_pool_trim_to 0) World.start = pre ++ [e] ∧
      e.failed = true ∧ ∀ x ∈ pre, x.failed = false) ∧
    requests (issued poolLookupFailsEnv (.mem_pool_trim_to 0) World.start)
      = [.cudaDeviceGetDefaultMemPool 0] ∧
    requests (issued createFailsEnv (.generate_uniform 64 4) World.start)
      = [.curandCreateGenerator 100] ∧
    requests (issued seedFailsEnv (.generate_normal 64 4 0 1) World.start)
      = [.curandCreateGenerator 100, .curandSetPseudoRandomGeneratorSeed 4096 0] :=
  ⟨(nothing_requested_after_failure poolLookupFailsEnv (.mem_pool_trim_to 0) World.start
      (by decide)).1, by decide, by decide, by decide⟩

/-! ## Copies, fills, pool trimming -/

theorem memcpy_async_eq (env : Env) (src dst bytes kind : Nat) (w : World) :
    hidet_cuda_memcpy_async env src dst bytes kind w
      = checkedCall env (.cudaMemcpyAsync dst src bytes kind nullptr) (fun _ => ()) w :=
  rfl

theorem memset_async_eq (env : Env) (addr bytes value : Nat) (w : World) :
    hidet_cuda_memset_async env addr bytes value w
      = checkedCall env (.cudaMemsetAsync addr value bytes nullptr) (fun _ => ()) w :=
  rfl

theorem checkedCall_issued {α : Type} (env : Env) (req : Request) (f : Response → α)
    (w : World) : issuedSince w (checkedCall env req f w) = [⟨req, respond env w req⟩] :=
  issuedSince_append w _ _ (by rw [checkedCall_world]; rfl)

/-- C4: `hidet_cuda_memcpy_async(src, dst, bytes, kind)` makes exactly one request, a copy on
the default stream with destination `dst`, source `src`, length `bytes` and direction `kind`
as given, for every value of `kind` and of the addresses; it throws exactly when the driver
answers that request with a non-success status. The direction codes are 0 host to host,
1 host to device, 2 device to host, 3 device to device. -/
theorem memcpy_async_forwards (env : Env) (src dst bytes kind : Nat) (w : World) :
    issuedSince w (hidet_cuda_memcpy_async env src dst bytes kind w)
      = [⟨.cudaMemcpyAsync dst src bytes kind nullptr,
          respond env w (.cudaMemcpyAsync dst src bytes kind nullptr)⟩] ∧
    (threw (hidet_cuda_memcpy_async env src dst bytes kind w) = true ↔
      (respond env w (.cudaMemcpyAsync dst src bytes kind nullptr)).status ≠ cudaSuccess) ∧
    cudaMemcpyHostToHost = 0 ∧ cudaMemcpyHostToDevice = 1 ∧
    cudaMemcpyDeviceToHost = 2 ∧ cudaMemcpyDeviceToDevice = 3 := by
  refine ⟨?_, ?_, rfl, rfl, rfl, rfl⟩
  · rw [memcpy_async_eq, checkedCall_issued]
  · rw [memcpy_async_eq, checkedCall_threw]
    simp

/-- C8: `hidet_cuda_memset_async(addr, bytes, value)` makes exactly one request, a fill on
the default stream of the `bytes` bytes from `addr` on with the byte `value` (value and
count in the order the driver takes them); once a request of that form has completed, each of
the `bytes` bytes starting at `addr` equals `value`, and no byte outside that range changed. -/
theorem memset_async_forwards (env : Env) (addr bytes value : Nat) (w : World)
    (hv : value < 256) :
    issuedSince w (hidet_cuda_memset_async env addr bytes value w)
      = [⟨.cudaMemsetAsync addr value bytes nullptr,
          respond env w (.cudaMemsetAsync addr value bytes nullptr)⟩] ∧
    (∀ e ∈ issuedSince w (hidet_cuda_memset_async env addr bytes value w),
      ∀ (mem : Nat → Nat) (a : Nat), addr ≤ a → a < addr + bytes →
        fillEffect e.req mem a = value) ∧
    (∀ e ∈ issuedSince w (hidet_cuda_memset_async env addr bytes value w),
      ∀ (mem : Nat → Nat) (a : Nat), ¬ (addr ≤ a ∧ a < addr + bytes) →
        fillEffect e.req mem a = mem a) := by
  rw [memset_async_eq, checkedCall_issued]
  refine ⟨rfl, ?_, ?_⟩
  · intro e he mem a h1 h2
    rw [List.mem_singleton.1 he]
    simp [fillEffect, h1, h2, Nat.mod_eq_of_lt hv]
  · intro e he mem a h
    rw [List.mem_singleton.1 he]
    simp only [fillEffect]
    rw [if_neg h]

/-- C8, at a concrete call: filling 16 bytes at 4096 with 171 makes the one request
`cudaMemsetAsync(4096, 171, 16, default stream)`. -/
theorem memset_async_forwards_witness :
    issuedSince World.start (hidet_cuda_memset_async okEnv 4096 16 171 World.start)
      = [⟨.cudaMemsetAsync 4096 171 16 nullptr,
          respond okEnv World.start (.cudaMemsetAsync 4096 171 16 nullptr)⟩] :=
  (memset_async_forwards okEnv 4096 16 171 World.start (by decide)).1

/-- C10: whatever device is current, `hidet_cuda_mem_pool_trim_to(min_bytes_to_keep)` first
looks up the default pool of device 0; when the lookup succeeds it makes exactly one more
request, a trim of the pool the lookup returned with `min_bytes_to_keep` as given; when the
lookup fails it makes no other request. Every trim request it makes is on that pool. -/
theorem mem_pool_trim_to_device_zero (env : Env) (d n : Nat) (w : World) :
    ((respond env w (.cudaDeviceGetDefaultMemPool 0)).status = cudaSuccess →
      requests (issuedSince w
          (hidet_cuda_mem_pool_trim_to { env with activeDevice := d } n w))
        = [.cudaDeviceGetDefaultMemPool 0,
           .cudaMemPoolTrimTo (respond env w (.cudaDeviceGetDefaultMemPool 0)).out n]) ∧
    ((respond env w (.cudaDeviceGetDefaultMemPool 0)).status ≠ cudaSuccess →
      requests (issuedSince w
          (hidet_cuda_mem_pool_trim_to { env with activeDevice := d } n w))
        = [.cudaDeviceGetDefaultMemPool 0]) ∧
    (∀ e ∈ issuedSince w (hidet_cuda_mem_pool_trim_to { env with activeDevice := d } n w),
      ∀ pool m, e.req = .cudaMemPoolTrimTo pool m →
        pool = (respond env w (.cudaDeviceGetDefaultMemPool 0)).out ∧ m = n) := by
  have hr : ∀ (w1 : World) (r : Request),
      respond { env with activeDevice := d } w1 r = respond env w1 r := fun _ _ => rfl
  by_cases h1 : (respond env w (.cudaDeviceGetDefaultMemPool 0)).status = cudaSuccess
  · have h1x : (respond { env with activeDevice := d } w
        (.cudaDeviceGetDefaultMemPool 0)).status = cudaSuccess := h1
    have hi : issuedSince w (hidet_cuda_mem_pool_trim_to { env with activeDevice := d } n w)
        = [⟨.cudaDeviceGetDefaultMemPool 0, respond env w (.cudaDeviceGetDefaultMemPool 0)⟩,
           ⟨.cudaMemPoolTrimTo (respond env w (.cudaDeviceGetDefaultMemPool 0)).out n,
            respond env (record w (.cudaDeviceGetDefaultMemPool 0)
              (respond env w (.cudaDeviceGetDefaultMemPool 0)))
              (.cudaMemPoolTrimTo (respond env w (.cudaDeviceGetDefaultMemPool 0)).out n)⟩] := by
      apply issuedSince_append
      rw [trim_lookup_succeeds _ n w h1x, checkedCall_world]
      simp [record, hr]
    rw [hi]
    refine ⟨fun _ => rfl, fun h => absurd h1 h, ?_⟩
    intro e he pool m hreq
    simp at he
    rcases he with rfl | rfl
    · simp at hreq
    · simp at hreq
      exact ⟨hreq.1.symm, hreq.2.symm⟩
  · have h1x : (respond { env with activeDevice := d } w
        (.cudaDeviceGetDefaultMemPool 0)).status ≠ cudaSuccess := h1
    have hi : issuedSince w (hidet_cuda_mem_pool_trim_to { env with activeDevice := d } n w)
        = [⟨.cudaDeviceGetDefaultMemPool 0,
            respond env w (.cudaDeviceGetDefaultMemPool 0)⟩] := by
      apply issuedSince_append
      rw [trim_lookup_fails _ n w h1x]
      simp [record, hr]
    rw [hi]
    refine ⟨fun h => absurd h h1, fun _ => rfl, ?_⟩
    intro e he pool m hreq
    simp at he
    subst he
    simp at hreq

/-- C10, with device 1 current: trimming to 512 bytes looks up the default pool of device 0
and trims the pool 4096 that the lookup returned. -/
theorem mem_pool_trim_to_device_zero_witness :
    requests (issuedSince World.start
        (hidet_cuda_mem_pool_trim_to { okEnv with activeDevice := 1 } 512 World.start))
      = [.cudaDeviceGetDefaultMemPool 0, .cudaMemPoolTrimTo 4096 512] :=
  (mem_pool_trim_to_device_zero okEnv 1 512 World.start).1 (by decide)

/-! ## Random fills -/

/-- The generation requests among the requests of a trace. -/
theorem generate_requests_of_fill (env : Env) (op : Op) (w : World) (g : Nat)
    (hf : op.isRandomFill = true) (hg : (CurandContext.global env w).1 = .ok g) :
    (requests (issued env op w)).filter Request.isGenerate = [fillReq op g] := by
  rcases issued_cases env op w with ⟨req, hr, hw, hc, h1, h2⟩ | ⟨n, rfl, h1, hw, hc, ht2⟩ |
    ⟨n, rfl, h1, hw, hc, ht2⟩ | ⟨hr, g1, hg1, hw, hc, ht2⟩ | ⟨hr, hg1, h1, hw, hc, ht2⟩ |
    ⟨hr, hg1, h1, h2, hw, hc, ht2⟩ | ⟨hr, hg1, h1, h2, hw, hc, ht2⟩
  · rw [(request?_plain op req hr).2.2.2.2.2.2] at hf
    exact absurd hf (by decide)
  · simp [Op.isRandomFill] at hf
  · simp [Op.isRandomFill] at hf
  · rw [global_some env w g1 hg1] at hg
    simp at hg
    subst hg
    rw [hw]
    simp [requests, (fillReq_generate op g1).1]
  · rw [global_create_fails env w hg1 h1] at hg
    simp at hg
  · rw [global_seed_fails env w hg1 h1 h2] at hg
    simp at hg
  · rw [global_succeeds env w hg1 h1 h2] at hg
    simp at hg
    subst hg
    rw [hw]
    simp [requests, (fillReq_generate op _).1, createReq_facts.2.2.2.1,
      (seedReq_facts env w).2.2.2.1]

theorem normal_issued (env : Env) (addr size mean stddev : Nat) (w : World) :
    issuedSince w (hidet_curand_generate_normal env addr size mean stddev w)
      = issued env (.generate_normal addr size mean stddev) w := by
  unfold issued issuedSince
  rw [show step env (.generate_normal addr size mean stddev) w
    = Outcome.ret (fun _ => Ret.void)
        (hidet_curand_generate_normal env addr size mean stddev w) from rfl, ret_world]

theorem and_one_ne_zero_iff (size : Nat) : size &&& 1 ≠ 0 ↔ size % 2 = 1 := by
  rw [Nat.and_one_is_mod]
  omega

/-- The generation request of a normal fill whose context lookup yields `g`. -/
theorem normal_generate_request (env : Env) (addr size mean stddev : Nat) (w : World)
    (g : Nat) (hg : (CurandContext.global env w).1 = .ok g) :
    (requests (issuedSince w
        (hidet_curand_generate_normal env addr size mean stddev w))).filter Request.isGenerate
      = [.curandGenerateNormal g addr (if size % 2 = 1 then (size + 1) % U64 else size)
          mean stddev] := by
  rw [normal_issued,
    generate_requests_of_fill env (.generate_normal addr size mean stddev) w g rfl hg]
  by_cases h : size % 2 = 1
  · simp [fillReq, (and_one_ne_zero_iff size).2 h, h]
  · have h0 : ¬ (size &&& 1 ≠ 0) := fun hc => h ((and_one_ne_zero_iff size).1 hc)
    simp only [fillReq, if_neg h0, if_neg h]

/-- C2 as stated fails: for the odd count `2^64 - 1` the normal fill asks the generator for 0
values, not for `count + 1`, and no value beyond the nominal count is written. -/
theorem generate_normal_count_wraps :
    requests (issuedSince World.start
        (hidet_curand_generate_normal okEnv 64 (2 ^ 64 - 1) 0 1 World.start))
      = [.curandCreateGenerator 100,
         .curandSetPseudoRandomGeneratorSeed 4096 (1700000000 ^^^ 1234),
         .curandGenerateNormal 4096 64 0 0 1] ∧
    (2 ^ 64 - 1) % 2 = 1 ∧ (0 : Nat) ≠ (2 ^ 64 - 1) + 1 := by
  decide

/-- C2, amended: whenever the context lookup yields a generator `g`, the normal fill makes
exactly one generation request, addressed to `g`, with the buffer, mean and standard deviation
as given, and with the count `size` when `size` is even, `size + 1` when `size` is odd and
below `2^64 - 1` (so a count of 5 asks for 6 values), and 0 when `size` is `2^64 - 1`. -/
theorem generate_normal_request (env : Env) (addr size mean stddev : Nat) (w : World)
    (g : Nat) (hg : (CurandContext.global env w).1 = .ok g) :
    (size % 2 = 0 →
      (requests (issuedSince w
          (hidet_curand_generate_normal env addr size mean stddev w))).filter
          Request.isGenerate
        = [.curandGenerateNormal g addr size mean stddev]) ∧
    (size % 2 = 1 → size < U64 - 1 →
      (requests (issuedSince w
          (hidet_curand_generate_normal env addr size mean stddev w))).filter
          Request.isGenerate
        = [.curandGenerateNormal g addr (size + 1) mean stddev]) ∧
    (size = U64 - 1 →
      (requests (issuedSince w
          (hidet_curand_generate_normal env addr size mean stddev w))).filter
          Request.isGenerate
        = [.curandGenerateNormal g addr 0 mean stddev]) := by
  rw [normal_generate_request env addr size mean stddev w g hg]
  refine ⟨?_, ?_, ?_⟩
  · intro h
    have h1 : ¬ size % 2 = 1 := by omega
    rw [if_neg h1]
  · intro h hlt
    rw [if_pos h, Nat.mod_eq_of_lt (by unfold U64 at hlt ⊢; omega)]
  · intro h
    subst h
    rfl

/-- C2 amended, at the count 5: the generator is asked for 6 values at the buffer 64 with mean
pattern 0 and deviation pattern 1. -/
theorem generate_normal_request_witness :
    (requests (issuedSince World.start
        (hidet_curand_generate_normal okEnv 64 5 0 1 World.start))).filter Request.isGenerate
      = [.curandGenerateNormal 4096 64 6 0 1] :=
  (generate_normal_request okEnv 64 5 0 1 World.start 4096 (by decide)).2.1 (by decide)
    (by decide)

/-- C9 as stated fails: for the count `2^64 - 1` the count handed to the generator is 0,
which is less than the requested count. -/
theorem generate_normal_count_below_request :
    (requests (issuedSince World.start
        (hidet_curand_generate_normal (constEnv 0 12) 128 (2 ^ 64 - 1) 3 4
          World.start))).filter Request.isGenerate
      = [.curandGenerateNormal 12 128 0 3 4] ∧
    2 ^ 64 - 1 < U64 ∧ ¬ (2 ^ 64 - 1 ≤ 0) := by
  decide

/-- C9, amended: for every 64-bit count the count handed to the generator by the normal fill
is even and is again a 64-bit value; for every count below `2^64 - 1` it is not less than the
requested count and exceeds it by at most 1; for the count `2^64 - 1` it is 0. -/
theorem generate_normal_count_rounding (env : Env) (addr size mean stddev : Nat) (w : World)
    (g : Nat) (hs : size < U64) (hg : (CurandContext.global env w).1 = .ok g) :
    ∃ n, (requests (issuedSince w
          (hidet_curand_generate_normal env addr size mean stddev w))).filter
          Request.isGenerate
        = [.curandGenerateNormal g addr n mean stddev] ∧
      n % 2 = 0 ∧ n < U64 ∧
      (size < U64 - 1 → size ≤ n ∧ n ≤ size + 1) ∧
      (size = U64 - 1 → n = 0) := by
  refine ⟨_, normal_generate_request env addr size mean stddev w g hg, ?_, ?_, ?_, ?_⟩
  all_goals unfold U64 at *
  · split_ifs with h <;> omega
  · split_ifs with h
    · exact Nat.mod_lt _ (by norm_num)
    · exact hs
  · intro hlt
    split_ifs with h
    · rw [Nat.mod_eq_of_lt (by omega)]
      omega
    · omega
  · intro h
    subst h
    rfl

/-- C9 amended, at the count 7: the generator is handed 8. -/
theorem generate_normal_count_rounding_witness :
    ∃ n, (requests (issuedSince World.start
          (hidet_curand_generate_normal okEnv 64 7 0 1 World.start))).filter
          Request.isGenerate
        = [.curandGenerateNormal 4096 64 n 0 1] ∧
      n % 2 = 0 ∧ n < U64 ∧ (7 < U64 - 1 → 7 ≤ n ∧ n ≤ 7 + 1) ∧ (7 = U64 - 1 → n = 0) :=
  generate_normal_count_rounding okEnv 64 7 0 1 World.start 4096 (by decide) (by decide)

/-! ## The generator context over call sequences -/

theorem run_append (env : Env) (a b : List Op) (w : World) :
    run env (a ++ b) w = run env b (run env a w) := by
  induction a generalizing w with
  | nil => rfl
  | cons op a ih => exact ih _

theorem createCount_append (a b : List Event) :
    createCount (a ++ b) = createCount a + createCount b := by
  simp [createCount]

theorem seedCount_append (a b : List Event) :
    seedCount (a ++ b) = seedCount a + seedCount b := by
  simp [seedCount]

theorem createCount_eq_zero (es : List Event) (h : ∀ e ∈ es, e.req.isCreate = false) :
    createCount es = 0 := by
  simp only [createCount, List.length_eq_zero, List.filter_eq_nil_iff]
  intro e he
  simp [h e he]

theorem seedCount_eq_zero (es : List Event) (h : ∀ e ∈ es, e.req.isSeed = false) :
    seedCount es = 0 := by
  simp only [seedCount, List.length_eq_zero, List.filter_eq_nil_iff]
  intro e he
  simp [h e he]

/-- A call that is not a random fill leaves the context alone and makes no cuRAND request. -/
theorem step_not_fill (env : Env) (op : Op) (w : World) (hf : op.isRandomFill = false) :
    (step env op w).2.ctx = w.ctx ∧
      ∀ e ∈ issued env op w,
        e.req.isCreate = false ∧ e.req.isSeed = false ∧ e.req.isGenerate = false := by
  rcases issued_cases env op w with ⟨req, hr, hw, hc, h1, h2⟩ | ⟨n, rfl, h1, hw, hc, ht2⟩ |
    ⟨n, rfl, h1, hw, hc, ht2⟩ | ⟨hr, g1, hg1, hw, hc, ht2⟩ | ⟨hr, hg1, h1, hw, hc, ht2⟩ |
    ⟨hr, hg1, h1, h2, hw, hc, ht2⟩ | ⟨hr, hg1, h1, h2, hw, hc, ht2⟩
  · refine ⟨hc, ?_⟩
    rw [hw]
    intro e he
    rw [List.mem_singleton.1 he]
    have := request?_plain op req hr
    exact ⟨this.2.1, this.2.2.1, this.2.2.2.1⟩
  · refine ⟨hc, ?_⟩
    rw [hw]
    intro e he
    rw [List.mem_singleton.1 he]
    exact ⟨poolReq_facts.2.1, poolReq_facts.2.2.1, poolReq_facts.2.2.2.1⟩
  · refine ⟨hc, ?_⟩
    rw [hw]
    intro e he
    simp at he
    rcases he with rfl | rfl
    · exact ⟨poolReq_facts.2.1, poolReq_facts.2.2.1, poolReq_facts.2.2.2.1⟩
    · have := trimReq_facts env w n
      exact ⟨this.2.1, this.2.2.1, this.2.2.2.1⟩
  all_goals rw [hr] at hf; exact absurd hf (by decide)

/-- Once the context exists, a call keeps it, creates and seeds nothing, and addresses every
generation request to the generator of the context. -/
theorem step_with_ctx (env : Env) (op : Op) (w : World) (g : Nat) (hg : w.ctx = some g) :
    (step env op w).2.ctx = some g ∧
      ∀ e ∈ issued env op w,
        e.req.isCreate = false ∧ e.req.isSeed = false ∧
          (e.req.isGenerate = true → e.req.generator? = some g) := by
  rcases issued_cases env op w with ⟨req, hr, hw, hc, h1, h2⟩ | ⟨n, rfl, h1, hw, hc, ht2⟩ |
    ⟨n, rfl, h1, hw, hc, ht2⟩ | ⟨hr, g1, hg1, hw, hc, ht2⟩ | ⟨hr, hg1, h1, hw, hc, ht2⟩ |
    ⟨hr, hg1, h1, h2, hw, hc, ht2⟩ | ⟨hr, hg1, h1, h2, hw, hc, ht2⟩
  · have hnf := (step_not_fill env op w (request?_plain op req hr).2.2.2.2.2.2)
    exact ⟨hnf.1.trans hg, fun e he =>
      ⟨(hnf.2 e he).1, (hnf.2 e he).2.1, fun h => by rw [(hnf.2 e he).2.2] at h; cases h⟩⟩
  · have hnf := (step_not_fill env (.mem_pool_trim_to n) w rfl)
    exact ⟨hnf.1.trans hg, fun e he =>
      ⟨(hnf.2 e he).1, (hnf.2 e he).2.1, fun h => by rw [(hnf.2 e he).2.2] at h; cases h⟩⟩
  · have hnf := (step_not_fill env (.mem_pool_trim_to n) w rfl)
    exact ⟨hnf.1.trans hg, fun e he =>
      ⟨(hnf.2 e he).1, (hnf.2 e he).2.1, fun h => by rw [(hnf.2 e he).2.2] at h; cases h⟩⟩
  · have hgg : g1 = g := by rw [hg1] at hg; exact Option.some.inj hg
    subst hgg
    refine ⟨hc, ?_⟩
    rw [hw]
    intro e he
    rw [List.mem_singleton.1 he]
    have := fillReq_generate op g1
    exact ⟨this.2.2.2.1, this.2.2.2.2.1, fun _ => this.2.1⟩
  all_goals rw [hg1] at hg; cases hg

theorem run_not_fill (env : Env) (ops : List Op) (w : World)
    (hf : ∀ o ∈ ops, o.isRandomFill = false) :
    (run env ops w).ctx = w.ctx ∧
      ∃ es, (run env ops w).trace = w.trace ++ es ∧
        ∀ e ∈ es, e.req.isCreate = false ∧ e.req.isSeed = false ∧
          e.req.isGenerate = false := by
  induction ops generalizing w with
  | nil => exact ⟨rfl, [], by simp [run], by simp⟩
  | cons op ops ih =>
    have h1 := step_not_fill env op w (hf op (List.mem_cons_self _ _))
    obtain ⟨hc, es, ht, hes⟩ := ih (step env op w).2
      (fun o ho => hf o (List.mem_cons_of_mem _ ho))
    refine ⟨hc.trans h1.1, issued env op w ++ es, ?_, ?_⟩
    · show (run env ops (step env op w).2).trace = _
      rw [ht, step_trace, List.append_assoc]
    · intro e he
      rcases List.mem_append.1 he with he | he
      · exact h1.2 e he
      · exact hes e he

theorem run_with_ctx (env : Env) (ops : List Op) (w : World) (g : Nat)
    (hg : w.ctx = some g) :
    (run env ops w).ctx = some g ∧
      ∃ es, (run env ops w).trace = w.trace ++ es ∧
        ∀ e ∈ es, e.req.isCreate = false ∧ e.req.isSeed = false ∧
          (e.req.isGenerate = true → e.req.generator? = some g) := by
  induction ops generalizing w with
  | nil => exact ⟨hg, [], by simp [run], by simp⟩
  | cons op ops ih =>
    have h1 := step_with_ctx env op w g hg
    obtain ⟨hc, es, ht, hes⟩ := ih (step env op w).2 h1.1
    refine ⟨hc, issued env op w ++ es, ?_, ?_⟩
    · show (run env ops (step env op w).2).trace = _
      rw [ht, step_trace, List.append_assoc]
    · intro e he
      rcases List.mem_append.1 he with he | he
      · exact h1.2 e he
      · exact hes e he

/-- The constructor returns a generator only when both of its requests succeeded, and then it
returns the generator that the creation request wrote. -/
theorem ctor_ok (env : Env) (w : World) (g : Nat) (hg : (CurandContext.ctor env w).1 = .ok g) :
    (createResp env w).status = CURAND_STATUS_SUCCESS ∧
      (seedResp env w).status = CURAND_STATUS_SUCCESS ∧ (createResp env w).out = g := by
  by_cases h1 : (createResp env w).status = CURAND_STATUS_SUCCESS
  · by_cases h2 : (seedResp env w).status = CURAND_STATUS_SUCCESS
    · rw [ctor_succeeds env w h1 h2] at hg
      exact ⟨h1, h2, by simpa using hg⟩
    · rw [ctor_seed_fails env w h1 h2] at hg
      simp at hg
  · rw [ctor_create_fails env w h1] at hg
    simp at hg

/-- The first random fill, when the constructor succeeds: creation, seeding, generation. -/
theorem first_fill (env : Env) (op : Op) (w : World) (g : Nat)
    (hop : op.isRandomFill = true) (hc : w.ctx = none)
    (hg : (CurandContext.ctor env w).1 = .ok g) :
    (step env op w).2.ctx = some g ∧
      issued env op w
        = [⟨createReq, createResp env w⟩, ⟨seedReq env w, seedResp env w⟩,
           ⟨fillReq op g, respond env (seeded env w) (fillReq op g)⟩] ∧
      (createResp env w).out = g := by
  obtain ⟨h1, h2, h3⟩ := ctor_ok env w g hg
  rcases issued_cases env op w with ⟨req, hr, hw, hc1, h4, h5⟩ | ⟨n, rfl, h4, hw, hc1, ht2⟩ |
    ⟨n, rfl, h4, hw, hc1, ht2⟩ | ⟨hr, g1, hg1, hw, hc1, ht2⟩ | ⟨hr, hg1, h4, hw, hc1, ht2⟩ |
    ⟨hr, hg1, h4, h5, hw, hc1, ht2⟩ | ⟨hr, hg1, h4, h5, hw, hc1, ht2⟩
  · rw [(request?_plain op req hr).2.2.2.2.2.2] at hop
    cases hop
  · cases hop
  · cases hop
  · rw [hc] at hg1; cases hg1
  · exact absurd h1 h4
  · exact absurd h2 h5
  · rw [h3] at hw hc1
    exact ⟨hc1, hw, h3⟩

theorem first_fill_counts (env : Env) (op : Op) (w : World) (g : Nat) :
    createCount [⟨createReq, createResp env w⟩, ⟨seedReq env w, seedResp env w⟩,
        ⟨fillReq op g, respond env (seeded env w) (fillReq op g)⟩] = 1 ∧
      seedCount [⟨createReq, createResp env w⟩, ⟨seedReq env w, seedResp env w⟩,
        ⟨fillReq op g, respond env (seeded env w) (fillReq op g)⟩] = 1 := by
  have hs := seedReq_facts env w
  have hf := fillReq_generate op g
  constructor
  · simp [createCount, List.filter, createReq_facts.2.1, hs.2.1, hf.2.2.2.1]
  · simp [seedCount, List.filter, createReq_facts.2.2.1, hs.2.2.1, hf.2.2.2.2.1]

/-- C5 as stated fails: when the first seeding request fails, the first random fill throws
with the context still unconstructed, and the second random fill creates a second generator
and sets a seed again. -/
theorem context_created_twice :
    requests (run seedFailsOnceEnv [.generate_uniform 64 4, .generate_uniform 64 4]
        World.start).trace
      = [.curandCreateGenerator 100, .curandSetPseudoRandomGeneratorSeed 7000 6,
         .curandCreateGenerator 100, .curandSetPseudoRandomGeneratorSeed 7002 6,
         .curandGenerateUniform 7002 64 4] ∧
    createCount (run seedFailsOnceEnv [.generate_uniform 64 4, .generate_uniform 64 4]
        World.start).trace = 2 ∧
    seedCount (run seedFailsOnceEnv [.generate_uniform 64 4, .generate_uniform 64 4]
        World.start).trace = 2 := by
  decide

/-- C5, amended: take any sequence of calls in which `op` is the first random fill (`pre`
holds the calls before it, none a random fill; `rest` the calls after it, of any kind) and in
which the constructor run by `op` succeeds with generator `g`. Then no generator is created
and no seed is set before `op`; by the end of `op` exactly one generator has been created and
one seed set; the same holds at the end of the whole sequence; the context then holds `g`,
the one creation request is the one that returned `g`, and every seeding and every generation
request of the sequence is addressed to `g`. -/
theorem context_created_once (env : Env) (pre rest : List Op) (op : Op) (g : Nat)
    (hpre : ∀ o ∈ pre, o.isRandomFill = false) (hop : op.isRandomFill = true)
    (hg : (CurandContext.ctor env (run env pre World.start)).1 = .ok g) :
    createCount (run env pre World.start).trace = 0 ∧
    seedCount (run env pre World.start).trace = 0 ∧
    (run env pre World.start).ctx = none ∧
    createCount (run env (pre ++ [op]) World.start).trace = 1 ∧
    seedCount (run env (pre ++ [op]) World.start).trace = 1 ∧
    createCount (run env (pre ++ op :: rest) World.start).trace = 1 ∧
    seedCount (run env (pre ++ op :: rest) World.start).trace = 1 ∧
    (run env (pre ++ op :: rest) World.start).ctx = some g ∧
    (∀ e ∈ (run env (pre ++ op :: rest) World.start).trace,
      e.req.isCreate = true → e.resp.out = g) ∧
    (∀ e ∈ (run env (pre ++ op :: rest) World.start).trace,
      (e.req.isSeed = true ∨ e.req.isGenerate = true) → e.req.generator? = some g) := by
  obtain ⟨hc0, es0, ht0, hes0⟩ := run_not_fill env pre World.start hpre
  have hc0 : (run env pre World.start).ctx = none := hc0
  have ht0 : (run env pre World.start).trace = es0 := by simpa [World.start] using ht0
  obtain ⟨hc1, hi1, hout⟩ := first_fill env op (run env pre World.start) g hop hc0 hg
  have ht1 := step_trace env op (run env pre World.start)
  have hcnt := first_fill_counts env op (run env pre World.start) g
  have hz0 : createCount es0 = 0 := createCount_eq_zero es0 (fun e he => (hes0 e he).1)
  have hs0 : seedCount es0 = 0 := seedCount_eq_zero es0 (fun e he => (hes0 e he).2.1)
  have hone : run env (pre ++ [op]) World.start = (step env op (run env pre World.start)).2 := by
    rw [run_append]; rfl
  have hall : ∀ tail, run env (pre ++ op :: tail) World.start
      = run env tail (step env op (run env pre World.start)).2 := by
    intro tail
    rw [run_append]; rfl
  obtain ⟨hc2, es2, ht2, hes2⟩ :=
    run_with_ctx env rest (step env op (run env pre World.start)).2 g hc1
  have hz2 : createCount es2 = 0 := createCount_eq_zero es2 (fun e he => (hes2 e he).1)
  have hs2 : seedCount es2 = 0 := seedCount_eq_zero es2 (fun e he => (hes2 e he).2.1)
  rw [hi1, ht0] at ht1
  rw [ht1] at ht2
  refine ⟨by rw [ht0]; exact hz0, by rw [ht0]; exact hs0, hc0, ?_, ?_, ?_, ?_, ?_, ?_, ?_⟩
  · rw [hone, ht1, createCount_append, hz0, hcnt.1]
  · rw [hone, ht1, seedCount_append, hs0, hcnt.2]
  · rw [hall rest, ht2, createCount_append, createCount_append, hz0, hz2, hcnt.1]
  · rw [hall rest, ht2, seedCount_append, seedCount_append, hs0, hs2, hcnt.2]
  · rw [hall rest]; exact hc2
  · rw [hall rest, ht2]
    intro e he hcr
    rcases List.mem_append.1 he with he | he
    · rcases List.mem_append.1 he with he | he
      · rw [(hes0 e he).1] at hcr; cases hcr
      · simp at he
        rcases he with rfl | rfl | rfl
        · exact hout
        · rw [(seedReq_facts env _).2.1] at hcr; cases hcr
        · rw [(fillReq_generate op g).2.2.2.1] at hcr; cases hcr
    · rw [(hes2 e he).1] at hcr; cases hcr
  · rw [hall rest, ht2]
    intro e he hsg
    rcases List.mem_append.1 he with he | he
    · rcases List.mem_append.1 he with he | he
      · rcases hsg with h | h
        · rw [(hes0 e he).2.1] at h; cases h
        · rw [(hes0 e he).2.2] at h; cases h
      · simp at he
        rcases he with rfl | rfl | rfl
        · rcases hsg with h | h
          · rw [createReq_facts.2.2.1] at h; cases h
          · rw [createReq_facts.2.2.2.1] at h; cases h
        · rw [(seedReq_facts env _).2.2.2.2.2.2, hout]
        · exact (fillReq_generate op g).2.1
    · rcases hsg with h | h
      · rw [(hes2 e he).2.1] at h; cases h
      · exact (hes2 e he).2.2 h

/-- C5 amended, at a driver for which everything succeeds: a normal fill, a pool trim and a
uniform fill, in this order, create one generator and set one seed. -/
theorem context_created_once_witness :
    createCount (run okEnv ([] ++ Op.generate_normal 64 5 0 1 ::
        [Op.mem_pool_trim_to 0, Op.generate_uniform 64 4]) World.start).trace = 1 ∧
    seedCount (run okEnv ([] ++ Op.generate_normal 64 5 0 1 ::
        [Op.mem_pool_trim_to 0, Op.generate_uniform 64 4]) World.start).trace = 1 ∧
    (run okEnv ([] ++ Op.generate_normal 64 5 0 1 ::
        [Op.mem_pool_trim_to 0, Op.generate_uniform 64 4]) World.start).ctx = some 4096 :=
  have h := context_created_once okEnv [] [.mem_pool_trim_to 0, .generate_uniform 64 4]
    (.generate_normal 64 5 0 1) 4096 (by simp) (by decide) (by decide)
  ⟨h.2.2.2.2.2.1, h.2.2.2.2.2.2.1, h.2.2.2.2.2.2.2.1⟩

end Hidet
